/-
Verification development for the weather anomaly-detection engine
(app/anomaly.py, app/models.py).

Embedding conventions:
* Weather values are exact rationals (ℚ); standard deviations and z-scores,
  which involve a square root, live in ℝ.
* Python `ZeroDivisionError` / `KeyError` / `IndexError` control flow is
  modelled with `Except Unit`; the blanket `except` handlers that return an
  empty list are modelled by `okD`.
* pandas NaN values (std of a one-element group, 0/0 division) are modelled
  with `Option`: `none` is NaN.  `abs NaN >= 2.0` is `False` in pandas, and
  `.fillna(0)` is `Option.getD 0`.
* Mongo documents are modelled by `WRecord`; the `month` field is taken as
  present (`record.get('month', 1)` is the identity then), the optional
  `tas_avg` field is an `Option`.  Description strings, timestamps and the
  constant `location` parameter are not modelled; no claim refers to them.
-/
import Mathlib

namespace WeatherAnomaly

/-- WeatherDataType enum from app/models.py. -/
inductive WeatherDataType where
  | TEMPERATURE
  | PRECIPITATION
  | HUMIDITY
  | PRESSURE
  | WIND
deriving DecidableEq, Repr

/-- AnomalySeverity enum from app/models.py. -/
inductive AnomalySeverity where
  | LOW
  | MEDIUM
  | HIGH
  | EXTREME
deriving DecidableEq, Repr

/-- One Mongo weather document for a single location, as consumed by
`AnomalyDetector` (fields `_id`, `year`, `month`, `pr_total`, `tasmax_avg`,
`tasmin_avg`, and the optional `tas_avg` used only by the moving-average
detector). -/
structure WRecord where
  id : String
  year : ℤ
  month : ℤ
  pr : ℚ
  tasmax : ℚ
  tasmin : ℚ
  tas : Option ℚ := none
deriving DecidableEq, Repr

/-- Anomaly model from app/models.py.  The last four fields have the pydantic
defaults `None`/`None`/`False`/`None`; constructors that omit them (extreme
events, moving average) leave those defaults in place. -/
structure Anomaly where
  weather_data_id : String
  anomaly_type : WeatherDataType
  severity : AnomalySeverity
  value : ℚ
  expected_value : ℚ
  deviation : ℚ
  z_score : ℝ
  monthly_historical_avg : Option ℚ := none
  monthly_anomaly_std : Option ℝ := none
  is_significant : Bool := false
  metric_type : Option String := none

/-- AnomalyDetector.calculate_mean: 0.0 on the empty list, else the
arithmetic mean. -/
def calculate_mean (values : List ℚ) : ℚ :=
  if values = [] then 0 else values.sum / values.length

/-- Sample variance with divisor (n-1), the quantity under the square root in
AnomalyDetector.calculate_std.  Only meaningful for 2 ≤ n; callers guard. -/
def sampleVarQ (values : List ℚ) : ℚ :=
  (values.map (fun x => (x - calculate_mean values) ^ 2)).sum / (values.length - 1)

/-- AnomalyDetector.calculate_std: 0.0 for fewer than 2 values, else
sqrt of the (n-1)-divisor sample variance. -/
noncomputable def calculate_std (values : List ℚ) : ℝ :=
  if values.length < 2 then 0 else Real.sqrt (sampleVarQ values)

open Classical in
/-- AnomalyDetector.calculate_z_score: 0 when std == 0, else
(value - mean) / std. -/
noncomputable def calculate_z_score (value mean std : ℝ) : ℝ :=
  if std = 0 then 0 else (value - mean) / std

open Classical in
/-- AnomalyDetector.determine_severity: thresholds on the absolute z-score. -/
noncomputable def determine_severity (z : ℝ) : AnomalySeverity :=
  if 2.5 ≤ |z| then AnomalySeverity.EXTREME
  else if 2 ≤ |z| then AnomalySeverity.HIGH
  else if 1.5 ≤ |z| then AnomalySeverity.MEDIUM
  else AnomalySeverity.LOW

/-! ### Primary z-score path
(`calculate_monthly_historical_averages`, `calculate_anomalies_with_zscores`,
`get_notebook_style_anomalies`).  The pandas groupby/merge pipeline is
embedded pointwise: the merged per-row columns are exactly the per-month
aggregates of the row's month. -/

/-- The rows sharing a calendar month: semantics of `df.groupby('month')`
restricted to one group and of merging the aggregate back on `month`. -/
def monthRecords (records : List WRecord) (m : ℤ) : List WRecord :=
  records.filter (fun r => r.month = m)

/-- Column `<var>_monthly_avg_historical` of
`calculate_monthly_historical_averages`, for the group of month `m`:
mean of the variable over every record of that calendar month. -/
def monthlyAvgHistorical (records : List WRecord) (f : WRecord → ℚ) (m : ℤ) : ℚ :=
  calculate_mean ((monthRecords records m).map f)

/-- Column `<var>_anomaly`: current value minus the monthly historical
average merged onto the row. -/
def devOf (records : List WRecord) (f : WRecord → ℚ) (r : WRecord) : ℚ :=
  f r - monthlyAvgHistorical records f r.month

/-- The `<var>_anomaly` column restricted to the group of month `m`. -/
def monthDevs (records : List WRecord) (f : WRecord → ℚ) (m : ℤ) : List ℚ :=
  (monthRecords records m).map (fun x => f x - monthlyAvgHistorical records f m)

/-- pandas `groupby(...).agg('std')` (ddof = 1): NaN (`none`) for a
one-element group, else the (n-1)-divisor sample standard deviation. -/
noncomputable def pandasStd (values : List ℚ) : Option ℝ :=
  if values.length < 2 then none else some (Real.sqrt (sampleVarQ values))

/-- Column `<var>_anomaly_std` merged onto a row of month `m`. -/
noncomputable def anomalyStdOf (records : List WRecord) (f : WRecord → ℚ) (m : ℤ) : Option ℝ :=
  pandasStd (monthDevs records f m)

open Classical in
/-- pandas float division of the `<var>_anomaly` column by the
`<var>_anomaly_std` column.  NaN std gives NaN; division by a zero std gives
NaN as well: the only reachable zero-std case is 0/0 (a zero anomaly-std
forces every deviation of the month to be 0, lemma `dev_eq_zero_of_std_zero`
below), and 0.0/0.0 is NaN in pandas. -/
noncomputable def pdDiv (x : ℚ) (s : Option ℝ) : Option ℝ :=
  match s with
  | none => none
  | some t => if t = 0 then none else some ((x : ℝ) / t)

/-- Column `<var>_anomaly_zscore` before `.fillna(0)`. -/
noncomputable def zRaw (records : List WRecord) (f : WRecord → ℚ) (r : WRecord) : Option ℝ :=
  pdDiv (devOf records f r) (anomalyStdOf records f r.month)

/-- Column `<var>_anomaly_significant`: `abs(zscore) >= 2.0` computed before
the fillna; a NaN compares as False. -/
def sigOf (records : List WRecord) (f : WRecord → ℚ) (r : WRecord) : Prop :=
  match zRaw records f r with
  | none => False
  | some z => 2 ≤ |z|

/-- Column `<var>_anomaly_zscore` after `.fillna(0)`; this is the value the
emitted Anomaly stores and feeds to `determine_severity`. -/
noncomputable def zStored (records : List WRecord) (f : WRecord → ℚ) (r : WRecord) : ℝ :=
  (zRaw records f r).getD 0

/-- The Anomaly object built for one significant variable of one row in
`get_notebook_style_anomalies`. -/
noncomputable def nbAnomaly (records : List WRecord) (f : WRecord → ℚ)
    (ty : WeatherDataType) (mt : Option String) (r : WRecord) : Anomaly :=
  { weather_data_id := r.id
    anomaly_type := ty
    severity := determine_severity (zStored records f r)
    value := f r
    expected_value := monthlyAvgHistorical records f r.month
    deviation := devOf records f r
    z_score := zStored records f r
    monthly_historical_avg := some (monthlyAvgHistorical records f r.month)
    monthly_anomaly_std := anomalyStdOf records f r.month
    is_significant := true
    metric_type := mt }

open Classical in
/-- Precipitation branch of the row loop of `get_notebook_style_anomalies`.
The code's second guard `not pd.isna(row[..zscore])` is on the post-fillna
column and is always true, so the emission condition is the significance
flag alone. -/
noncomputable def prChunk (records : List WRecord) (r : WRecord) : List Anomaly :=
  if sigOf records WRecord.pr r then
    [nbAnomaly records WRecord.pr WeatherDataType.PRECIPITATION none r] else []

open Classical in
/-- Maximum-temperature branch of the row loop (metric_type 'tasmax'). -/
noncomputable def maxChunk (records : List WRecord) (r : WRecord) : List Anomaly :=
  if sigOf records WRecord.tasmax r then
    [nbAnomaly records WRecord.tasmax WeatherDataType.TEMPERATURE (some "tasmax") r] else []

open Classical in
/-- Minimum-temperature branch of the row loop (metric_type 'tasmin'). -/
noncomputable def minChunk (records : List WRecord) (r : WRecord) : List Anomaly :=
  if sigOf records WRecord.tasmin r then
    [nbAnomaly records WRecord.tasmin WeatherDataType.TEMPERATURE (some "tasmin") r] else []

/-- AnomalyDetector.get_notebook_style_anomalies: rows in fetched order;
per row precipitation, then max temperature, then min temperature. -/
noncomputable def get_notebook_style_anomalies (records : List WRecord) : List Anomaly :=
  records.flatMap (fun r => prChunk records r ++ maxChunk records r ++ minChunk records r)

/-! ### Extreme-event detector (`detect_extreme_events`).
The body can raise `ZeroDivisionError` (the z-score lines divide by
`calculate_std` directly, without the guard of `calculate_z_score`), so it is
embedded in `Except Unit`; the enclosing `try/except` returning `[]` is
`okD`. -/

/-- Python `max` of a nonempty list (the empty case is unreachable at use
sites: month groups are nonempty). -/
def pyMax : List ℚ → ℚ
  | [] => 0
  | x :: xs => xs.foldl max x

/-- Python `min` of a nonempty list. -/
def pyMin : List ℚ → ℚ
  | [] => 0
  | x :: xs => xs.foldl min x

/-- Keys of the `monthly_records` dict in first-appearance (insertion)
order. -/
def monthsOf (records : List WRecord) : List ℤ :=
  records.foldl (fun acc r => if r.month ∈ acc then acc else acc ++ [r.month]) []

/-- The exception-free part of the Python `try` block's list accumulation:
sequence the per-element computations left to right, stopping at the first
raised exception. -/
def exceptFlatMap (f : α → Except Unit (List β)) : List α → Except Unit (List β)
  | [] => Except.ok []
  | x :: xs =>
    match f x with
    | Except.error e => Except.error e
    | Except.ok y =>
      match exceptFlatMap f xs with
      | Except.error e => Except.error e
      | Except.ok ys => Except.ok (y ++ ys)

/-- A blanket `except` handler that turns any raised exception into the
empty result. -/
def okD : Except Unit (List α) → List α
  | Except.ok l => l
  | Except.error _ => []

open Classical in
/-- One `if record[...] == extreme:` body of `detect_extreme_events`: the
z-score line `(ext - mean(vals)) / std(vals)` raises ZeroDivisionError when
the std is 0; otherwise the anomaly (severity fixed to EXTREME) is emitted
iff `abs(z) >= 2.0`.  Optional Anomaly fields keep their defaults. -/
noncomputable def extremeCheck (ty : WeatherDataType) (ext : ℚ) (vals : List ℚ)
    (rid : String) : Except Unit (List Anomaly) :=
  if calculate_std vals = 0 then Except.error ()
  else
    Except.ok
      (if 2 ≤ |((ext : ℝ) - (calculate_mean vals : ℚ)) / calculate_std vals| then
        [{ weather_data_id := rid
           anomaly_type := ty
           severity := AnomalySeverity.EXTREME
           value := ext
           expected_value := calculate_mean vals
           deviation := ext - calculate_mean vals
           z_score := ((ext : ℝ) - (calculate_mean vals : ℚ)) / calculate_std vals }]
      else [])

/-- The three extreme checks run for one record of a month group, in source
order: record-high max temperature, record-low min temperature, record-high
precipitation. -/
noncomputable def extremeRecordChecks (r : WRecord) (maxT minT maxP : ℚ)
    (maxTs minTs prs : List ℚ) : Except Unit (List Anomaly) :=
  match (if r.tasmax = maxT then
          extremeCheck WeatherDataType.TEMPERATURE maxT maxTs r.id else Except.ok []) with
  | Except.error e => Except.error e
  | Except.ok a =>
    match (if r.tasmin = minT then
            extremeCheck WeatherDataType.TEMPERATURE minT minTs r.id else Except.ok []) with
    | Except.error e => Except.error e
    | Except.ok b =>
      match (if r.pr = maxP then
              extremeCheck WeatherDataType.PRECIPITATION maxP prs r.id else Except.ok []) with
      | Except.error e => Except.error e
      | Except.ok c => Except.ok (a ++ b ++ c)

/-- The body of the month loop of `detect_extreme_events`: months with fewer
than 10 records are skipped. -/
noncomputable def extremeMonth (records : List WRecord) (m : ℤ) : Except Unit (List Anomaly) :=
  let ms := monthRecords records m
  if ms.length < 10 then Except.ok []
  else
    exceptFlatMap
      (fun r => extremeRecordChecks r
        (pyMax (ms.map WRecord.tasmax)) (pyMin (ms.map WRecord.tasmin))
        (pyMax (ms.map WRecord.pr))
        (ms.map WRecord.tasmax) (ms.map WRecord.tasmin) (ms.map WRecord.pr))
      ms

/-- `detect_extreme_events` up to (but not including) its blanket exception
handler. -/
noncomputable def detectExtremeEventsE (records : List WRecord) : Except Unit (List Anomaly) :=
  exceptFlatMap (extremeMonth records) (monthsOf records)

/-- AnomalyDetector.detect_extreme_events as callers see it: any raised
exception is caught and the empty list is returned. -/
noncomputable def detect_extreme_events (records : List WRecord) : List Anomaly :=
  okD (detectExtremeEventsE records)

/-- Reference rendering of spec §4.5 for the refinement theorem of claim C5,
written from the spec's words: for each month with at least 10 records, every
record tying the month extreme is tested with a z-score of the extreme
against the month's raw-value mean/std via the stats kernel
(`calculate_z_score`, hence z = 0 on a degenerate month), an anomaly with
severity fixed to EXTREME being emitted iff the absolute z-score is at
least 2. -/
noncomputable def specExtremeCheck (ty : WeatherDataType) (ext : ℚ) (vals : List ℚ)
    (rid : String) : List Anomaly :=
  if 2 ≤ |calculate_z_score (ext : ℝ) ((calculate_mean vals : ℚ) : ℝ) (calculate_std vals)| then
    [{ weather_data_id := rid
       anomaly_type := ty
       severity := AnomalySeverity.EXTREME
       value := ext
       expected_value := calculate_mean vals
       deviation := ext - calculate_mean vals
       z_score := calculate_z_score (ext : ℝ) ((calculate_mean vals : ℚ) : ℝ) (calculate_std vals) }]
  else []

/-- Reference month body for `extremeEventsSpec` (spec §4.5). -/
noncomputable def specExtremeMonth (records : List WRecord) (m : ℤ) : List Anomaly :=
  let ms := monthRecords records m
  if ms.length < 10 then []
  else
    ms.flatMap (fun r =>
      (if r.tasmax = pyMax (ms.map WRecord.tasmax) then
        specExtremeCheck WeatherDataType.TEMPERATURE (pyMax (ms.map WRecord.tasmax))
          (ms.map WRecord.tasmax) r.id else []) ++
      (if r.tasmin = pyMin (ms.map WRecord.tasmin) then
        specExtremeCheck WeatherDataType.TEMPERATURE (pyMin (ms.map WRecord.tasmin))
          (ms.map WRecord.tasmin) r.id else []) ++
      (if r.pr = pyMax (ms.map WRecord.pr) then
        specExtremeCheck WeatherDataType.PRECIPITATION (pyMax (ms.map WRecord.pr))
          (ms.map WRecord.pr) r.id else []))

/-- Extreme-event detection as the spec describes it (claim C5). -/
noncomputable def extremeEventsSpec (records : List WRecord) : List Anomaly :=
  (monthsOf records).flatMap (specExtremeMonth records)

/-! ### Moving-average detector (`detect_moving_average_anomalies`). -/

/-- The list comprehension `[d['tas_avg'] for d in weather_data]`: raises
KeyError (modelled as `Except.error`) at the first record missing the
field. -/
def getTasList : List WRecord → Except Unit (List ℚ)
  | [] => Except.ok []
  | r :: rs =>
    match r.tas with
    | none => Except.error ()
    | some v =>
      match getTasList rs with
      | Except.error e => Except.error e
      | Except.ok vs => Except.ok (v :: vs)

/-- Python `range(a, b)`. -/
def pyRange (a b : ℕ) : List ℕ :=
  (List.range b).filter (fun i => a ≤ i)

/-- The slice `values[max(0, i - W//2) : min(len(values), i + W//2 + 1)]`:
the centered window, clamped to the array bounds (ℕ subtraction is the
`max(0, ...)` clamp). -/
def windowSlice (values : List ℚ) (W i : ℕ) : List ℚ :=
  let start := i - W / 2
  let stop := min values.length (i + W / 2 + 1)
  (values.drop start).take (stop - start)

open Classical in
/-- The flagging step of the index loop: `moving_averages[i]` and
`moving_stds[i]` are the mean/std of the window at `i` (the code precomputes
them in lists; list index `i` equals the per-index value).  Flag iff the
window std is positive and `abs(z) >= 2.0`, severity from
`determine_severity`; optional Anomaly fields keep their defaults. -/
noncomputable def maFlag (records : List WRecord) (values : List ℚ) (W i : ℕ) : List Anomaly :=
  let ma := calculate_mean (windowSlice values W i)
  let ms := calculate_std (windowSlice values W i)
  if 0 < ms then
    if 2 ≤ |((values.getD i 0 : ℚ) - (ma : ℚ)) / ms| then
      [{ weather_data_id := (records.map WRecord.id).getD i ""
         anomaly_type := WeatherDataType.TEMPERATURE
         severity := determine_severity (((values.getD i 0 : ℚ) - (ma : ℚ)) / ms)
         value := values.getD i 0
         expected_value := ma
         deviation := values.getD i 0 - ma
         z_score := ((values.getD i 0 : ℚ) - (ma : ℚ)) / ms }]
    else []
  else []

/-- `detect_moving_average_anomalies` up to its blanket exception handler:
fewer than `window_size` records return `[]`; `weather_data[0]` raises
IndexError on an empty dataset (reachable only for `window_size = 0`); the
`'tas_avg' in weather_data[0]` membership test skips the whole block when the
first record lacks the field; building `values` can raise KeyError; flagging
runs over `range(window_size, len(values) - window_size)`. -/
noncomputable def detectMovingAverageE (records : List WRecord) (window_size : ℕ) :
    Except Unit (List Anomaly) :=
  if records.length < window_size then Except.ok []
  else
    match records with
    | [] => Except.error ()
    | r0 :: _ =>
      match r0.tas with
      | none => Except.ok []
      | some _ =>
        match getTasList records with
        | Except.error e => Except.error e
        | Except.ok values =>
          Except.ok
            ((pyRange window_size (values.length - window_size)).flatMap
              (maFlag records values window_size))

/-- AnomalyDetector.detect_moving_average_anomalies as callers see it. -/
noncomputable def detect_moving_average_anomalies (records : List WRecord)
    (window_size : ℕ) : List Anomaly :=
  okD (detectMovingAverageE records window_size)

/-- Reference rendering of spec §4.6 for the refinement theorem of claim C7,
written from the spec's words: on the average-temperature series, for the
interior indices `[W, length - W)` only, flag iff the z-score against the
centered bounds-clamped window mean/std satisfies `|z| >= 2.0` with a
positive window std, severity from the §4.4 table. -/
noncomputable def movingSpec (records : List WRecord) (W : ℕ) : List Anomaly :=
  let values := records.map (fun r => r.tas.getD 0)
  (pyRange W (values.length - W)).flatMap (fun i =>
    let ma := calculate_mean (windowSlice values W i)
    let ms := calculate_std (windowSlice values W i)
    if 0 < ms ∧ 2 ≤ |((values.getD i 0 : ℚ) - (ma : ℚ)) / ms| then
      [{ weather_data_id := (records.map WRecord.id).getD i ""
         anomaly_type := WeatherDataType.TEMPERATURE
         severity := determine_severity (((values.getD i 0 : ℚ) - (ma : ℚ)) / ms)
         value := values.getD i 0
         expected_value := ma
         deviation := values.getD i 0 - ma
         z_score := ((values.getD i 0 : ℚ) - (ma : ℚ)) / ms }]
    else [])

/-! ### Persistence (`save_anomalies`, `run_full_anomaly_detection`).
The storage collaborator is abstracted by two flags: whether the
`delete_many` call and the `insert_many` call succeed.  Each function
returns its Python result dict together with the list of documents the
storage ends up holding for the location ([] when the insert raised:
`insert_many` is all-or-nothing here). -/

/-- Result dict of `save_anomalies`. -/
structure SaveOutcome where
  success : Bool
  saved_count : ℕ
deriving DecidableEq, Repr

/-- Result dict of `run_full_anomaly_detection` (`save_result` is absent
when the run failed before saving). -/
structure RunOutcome where
  success : Bool
  total_detected : ℕ
  save_result : Option SaveOutcome
deriving DecidableEq, Repr

/-- The `seen`-set deduplication loop of `save_anomalies`: first occurrence
of each (weather_data_id, anomaly_type) pair survives. -/
def dedupGo (seen : List (String × WeatherDataType)) : List Anomaly → List Anomaly
  | [] => []
  | a :: rest =>
    if (a.weather_data_id, a.anomaly_type) ∈ seen then dedupGo seen rest
    else a :: dedupGo ((a.weather_data_id, a.anomaly_type) :: seen) rest

/-- Deduplication by (weather_data_id, anomaly_type), first wins. -/
def dedupAnomalies (l : List Anomaly) : List Anomaly :=
  dedupGo [] l

/-- AnomalyDetector.save_anomalies: empty input short-circuits; otherwise the
deduplicated list is bulk-inserted; a rejected insert is caught inside this
function and reported as success=False, saved_count=0, with nothing
persisted. -/
def save_anomalies (insertOk : Bool) (anomalies : List Anomaly) :
    SaveOutcome × List Anomaly :=
  match anomalies with
  | [] => (⟨true, 0⟩, [])
  | _ :: _ =>
    match dedupAnomalies anomalies with
    | [] => (⟨true, 0⟩, [])
    | _ :: _ =>
      if insertOk then (⟨true, (dedupAnomalies anomalies).length⟩, dedupAnomalies anomalies)
      else (⟨false, 0⟩, [])

/-- AnomalyDetector.run_full_anomaly_detection: clear old anomalies (a
rejected delete is caught by the outer handler: success=False, nothing
persisted), detect with the notebook path then the extreme-event path,
concatenate in that order, save.  The returned dict has success=True
whenever the delete succeeded, regardless of `save_result`. -/
noncomputable def run_full_anomaly_detection (deleteOk insertOk : Bool)
    (records : List WRecord) : RunOutcome × List Anomaly :=
  if deleteOk then
    let all_anomalies := get_notebook_style_anomalies records ++ detect_extreme_events records
    let sr := save_anomalies insertOk all_anomalies
    (⟨true, all_anomalies.length, some sr.1⟩, sr.2)
  else (⟨false, 0, none⟩, [])

/-! ### Concrete datasets for witnesses and counterexamples. -/

/-- A single record (smallest nonempty dataset). -/
def demo1 : WRecord := ⟨"a1", 1990, 3, 5, 20, 10, none⟩

/-- The record of `demoRecords` that is a significant max- and
min-temperature anomaly. -/
def demoR9 : WRecord := ⟨"r9", 1998, 1, 0, 9, 9, none⟩

/-- Nine records of one calendar month: eight with max/min temperature 0 and
one outlier at 9.  The outlier's anomaly z-score is 8/3 for both temperature
variables (deviation 8, anomaly std 3), so it is significant on both; the
precipitation column is constant, so its anomaly std is 0. -/
def demoRecords : List WRecord :=
  [⟨"r1", 1990, 1, 0, 0, 0, none⟩, ⟨"r2", 1991, 1, 0, 0, 0, none⟩,
   ⟨"r3", 1992, 1, 0, 0, 0, none⟩, ⟨"r4", 1993, 1, 0, 0, 0, none⟩,
   ⟨"r5", 1994, 1, 0, 0, 0, none⟩, ⟨"r6", 1995, 1, 0, 0, 0, none⟩,
   ⟨"r7", 1996, 1, 0, 0, 0, none⟩, ⟨"r8", 1997, 1, 0, 0, 0, none⟩,
   demoR9]

/-- Ten records of one calendar month in which every variable is constant:
the degenerate-variance input for the extreme-event detector. -/
def c4Records : List WRecord :=
  [⟨"e1", 1990, 1, 5, 5, 5, none⟩, ⟨"e2", 1991, 1, 5, 5, 5, none⟩,
   ⟨"e3", 1992, 1, 5, 5, 5, none⟩, ⟨"e4", 1993, 1, 5, 5, 5, none⟩,
   ⟨"e5", 1994, 1, 5, 5, 5, none⟩, ⟨"e6", 1995, 1, 5, 5, 5, none⟩,
   ⟨"e7", 1996, 1, 5, 5, 5, none⟩, ⟨"e8", 1997, 1, 5, 5, 5, none⟩,
   ⟨"e9", 1998, 1, 5, 5, 5, none⟩, ⟨"e10", 1999, 1, 5, 5, 5, none⟩]

/-- Ten records of one calendar month with nondegenerate variance: record
b10 holds both the record-high max temperature (z = 9/sqrt 10, significant)
and the record-low min temperature (z = -9/sqrt 10, significant); the
precipitation record high of 1 is tied by five records but its z-score
(sqrt (9/10)) is below 2, so no precipitation anomaly is emitted. -/
def c5Records : List WRecord :=
  [⟨"b1", 1990, 1, 0, 0, 0, none⟩, ⟨"b2", 1991, 1, 1, 0, 0, none⟩,
   ⟨"b3", 1992, 1, 0, 0, 0, none⟩, ⟨"b4", 1993, 1, 1, 0, 0, none⟩,
   ⟨"b5", 1994, 1, 0, 0, 0, none⟩, ⟨"b6", 1995, 1, 1, 0, 0, none⟩,
   ⟨"b7", 1996, 1, 0, 0, 0, none⟩, ⟨"b8", 1997, 1, 1, 0, 0, none⟩,
   ⟨"b9", 1998, 1, 0, 0, 0, none⟩, ⟨"b10", 1999, 1, 1, 10, -10, none⟩]

/-- Ten records of one calendar month whose max-temperature values are all
equal (the degenerate extreme of claim C6); the other variables vary. -/
def c6Records : List WRecord :=
  [⟨"d1", 1990, 2, 0, 7, 0, none⟩, ⟨"d2", 1991, 2, 1, 7, 1, none⟩,
   ⟨"d3", 1992, 2, 0, 7, 0, none⟩, ⟨"d4", 1993, 2, 1, 7, 1, none⟩,
   ⟨"d5", 1994, 2, 0, 7, 0, none⟩, ⟨"d6", 1995, 2, 1, 7, 1, none⟩,
   ⟨"d7", 1996, 2, 0, 7, 0, none⟩, ⟨"d8", 1997, 2, 1, 7, 1, none⟩,
   ⟨"d9", 1998, 2, 0, 7, 0, none⟩, ⟨"d10", 1999, 2, 1, 7, 1, none⟩]

/-- Ten records of one calendar month whose min-temperature values are all
equal while the other two variables vary: a month degenerate in the second
checked variable only, so the detector's max-temperature checks complete
before the min-temperature division raises. -/
def c6bRecords : List WRecord :=
  [⟨"n1", 1990, 3, 0, 0, 4, none⟩, ⟨"n2", 1991, 3, 1, 1, 4, none⟩,
   ⟨"n3", 1992, 3, 0, 0, 4, none⟩, ⟨"n4", 1993, 3, 1, 1, 4, none⟩,
   ⟨"n5", 1994, 3, 0, 0, 4, none⟩, ⟨"n6", 1995, 3, 1, 1, 4, none⟩,
   ⟨"n7", 1996, 3, 0, 0, 4, none⟩, ⟨"n8", 1997, 3, 1, 1, 4, none⟩,
   ⟨"n9", 1998, 3, 0, 0, 4, none⟩, ⟨"n10", 1999, 3, 1, 1, 4, none⟩]

/-- Two calendar months of ten records each: month 1 has all-equal values
(zero variance), month 2 repeats the `c5Records` pattern, whose
max-temperature record high has z-score 9/sqrt 10 ≥ 2.  Month 1's
ZeroDivisionError aborts the whole detector run, so month 2's qualifying
extreme is never emitted. -/
def c5bRecords : List WRecord :=
  [⟨"f1", 1990, 1, 5, 5, 5, none⟩, ⟨"f2", 1991, 1, 5, 5, 5, none⟩,
   ⟨"f3", 1992, 1, 5, 5, 5, none⟩, ⟨"f4", 1993, 1, 5, 5, 5, none⟩,
   ⟨"f5", 1994, 1, 5, 5, 5, none⟩, ⟨"f6", 1995, 1, 5, 5, 5, none⟩,
   ⟨"f7", 1996, 1, 5, 5, 5, none⟩, ⟨"f8", 1997, 1, 5, 5, 5, none⟩,
   ⟨"f9", 1998, 1, 5, 5, 5, none⟩, ⟨"f10", 1999, 1, 5, 5, 5, none⟩,
   ⟨"g1", 1990, 2, 0, 0, 0, none⟩, ⟨"g2", 1991, 2, 1, 0, 0, none⟩,
   ⟨"g3", 1992, 2, 0, 0, 0, none⟩, ⟨"g4", 1993, 2, 1, 0, 0, none⟩,
   ⟨"g5", 1994, 2, 0, 0, 0, none⟩, ⟨"g6", 1995, 2, 1, 0, 0, none⟩,
   ⟨"g7", 1996, 2, 0, 0, 0, none⟩, ⟨"g8", 1997, 2, 1, 0, 0, none⟩,
   ⟨"g9", 1998, 2, 0, 0, 0, none⟩, ⟨"g10", 1999, 2, 1, 10, -10, none⟩]

/-- Thirteen records carrying the average-temperature series
(0,0,0,0,0,0,7,0,0,0,0,0,0).  With window size 6 the only interior index is
6; its window (0,0,0,7,0,0,0) has mean 1, variance 7 and z-score 6/sqrt 7,
which is significant (36 >= 4*7) with severity HIGH (36 < 6.25*7). -/
def c7Records : List WRecord :=
  [⟨"m1", 1990, 1, 0, 0, 0, some 0⟩, ⟨"m2", 1991, 1, 0, 0, 0, some 0⟩,
   ⟨"m3", 1992, 1, 0, 0, 0, some 0⟩, ⟨"m4", 1993, 1, 0, 0, 0, some 0⟩,
   ⟨"m5", 1994, 1, 0, 0, 0, some 0⟩, ⟨"m6", 1995, 1, 0, 0, 0, some 0⟩,
   ⟨"m7", 1996, 1, 0, 0, 0, some 7⟩, ⟨"m8", 1997, 1, 0, 0, 0, some 0⟩,
   ⟨"m9", 1998, 1, 0, 0, 0, some 0⟩, ⟨"m10", 1999, 1, 0, 0, 0, some 0⟩,
   ⟨"m11", 2000, 1, 0, 0, 0, some 0⟩, ⟨"m12", 2001, 1, 0, 0, 0, some 0⟩,
   ⟨"m13", 2002, 1, 0, 0, 0, some 0⟩]

/-! ### Helper lemmas. -/

theorem sampleVarQ_nonneg (l : List ℚ) (h : 2 ≤ l.length) : 0 ≤ sampleVarQ l := by
  unfold sampleVarQ
  apply div_nonneg
  · apply List.sum_nonneg
    intro x hx
    obtain ⟨y, _, rfl⟩ := List.mem_map.mp hx
    positivity
  · have : (2 : ℚ) ≤ (l.length : ℚ) := by exact_mod_cast h
    linarith

theorem calculate_std_sq (l : List ℚ) (h : 2 ≤ l.length) :
    (calculate_std l) ^ 2 = ((sampleVarQ l : ℚ) : ℝ) := by
  unfold calculate_std
  rw [if_neg (by omega)]
  rw [Real.sq_sqrt]
  exact_mod_cast sampleVarQ_nonneg l h

theorem calculate_std_nonneg (l : List ℚ) : 0 ≤ calculate_std l := by
  unfold calculate_std
  split
  · exact le_refl 0
  · exact Real.sqrt_nonneg _

theorem sqrt_cast_eq (q r : ℚ) (hr : 0 ≤ r) (h : r ^ 2 = q) :
    Real.sqrt ((q : ℚ) : ℝ) = ((r : ℚ) : ℝ) := by
  have : ((q : ℚ) : ℝ) = ((r : ℚ) : ℝ) ^ 2 := by
    rw [← h]; push_cast; ring
  rw [this, Real.sqrt_sq (by exact_mod_cast hr)]

theorem pdDiv_some_ne (x : ℚ) (t : ℝ) (ht : t ≠ 0) :
    pdDiv x (some t) = some ((x : ℝ) / t) := by
  show (if t = 0 then none else some ((x : ℝ) / t)) = some ((x : ℝ) / t)
  rw [if_neg ht]

theorem pdDiv_some_zero (x : ℚ) : pdDiv x (some 0) = none := by
  show (if (0 : ℝ) = 0 then none else some ((x : ℝ) / 0)) = none
  rw [if_pos rfl]

theorem sigOf_iff_of_some {records : List WRecord} {f : WRecord → ℚ} {r : WRecord} {z : ℝ}
    (h : zRaw records f r = some z) : sigOf records f r ↔ 2 ≤ |z| := by
  unfold sigOf
  rw [h]

theorem sigOf_not_of_none {records : List WRecord} {f : WRecord → ℚ} {r : WRecord}
    (h : zRaw records f r = none) : ¬ sigOf records f r := by
  unfold sigOf
  rw [h]
  exact fun hc => hc

theorem zStored_of_some {records : List WRecord} {f : WRecord → ℚ} {r : WRecord} {z : ℝ}
    (h : zRaw records f r = some z) : zStored records f r = z := by
  unfold zStored
  rw [h]
  rfl

theorem zStored_of_none {records : List WRecord} {f : WRecord → ℚ} {r : WRecord}
    (h : zRaw records f r = none) : zStored records f r = 0 := by
  unfold zStored
  rw [h]
  rfl

theorem sig_two_le_zStored {records : List WRecord} {f : WRecord → ℚ} {r : WRecord}
    (h : sigOf records f r) : 2 ≤ |zStored records f r| := by
  unfold sigOf at h
  rcases hz : zRaw records f r with _ | z
  · rw [hz] at h; exact absurd h (fun hc => hc)
  · rw [hz] at h; rw [zStored_of_some hz]; exact h

theorem two_le_zStored_sig {records : List WRecord} {f : WRecord → ℚ} {r : WRecord}
    (h : 2 ≤ |zStored records f r|) : sigOf records f r := by
  unfold sigOf
  rcases hz : zRaw records f r with _ | z
  · rw [zStored_of_none hz] at h; norm_num at h
  · rw [zStored_of_some hz] at h; exact h

theorem severity_of_two_le (z : ℝ) (h : 2 ≤ |z|) :
    determine_severity z = AnomalySeverity.HIGH ∨
    determine_severity z = AnomalySeverity.EXTREME := by
  unfold determine_severity
  by_cases h25 : (2.5 : ℝ) ≤ |z|
  · rw [if_pos h25]; right; rfl
  · rw [if_neg h25, if_pos h]; left; rfl

theorem le_abs_div_sqrt_iff (c x v : ℝ) (hv : 0 < v) (hc : 0 ≤ c) :
    c ≤ |x / Real.sqrt v| ↔ c ^ 2 * v ≤ x ^ 2 := by
  have hs : 0 < Real.sqrt v := Real.sqrt_pos.mpr hv
  have hs2 : Real.sqrt v ^ 2 = v := Real.sq_sqrt hv.le
  rw [abs_div, abs_of_pos hs, le_div_iff₀ hs]
  rw [← pow_le_pow_iff_left₀ (mul_nonneg hc hs.le) (abs_nonneg x) two_ne_zero]
  rw [mul_pow, hs2, sq_abs]

theorem mem_prChunk {records : List WRecord} {r : WRecord} {a : Anomaly}
    (h : a ∈ prChunk records r) :
    sigOf records WRecord.pr r ∧
      a = nbAnomaly records WRecord.pr WeatherDataType.PRECIPITATION none r := by
  by_cases hs : sigOf records WRecord.pr r
  · unfold prChunk at h
    rw [if_pos hs] at h
    simp at h
    exact ⟨hs, h⟩
  · unfold prChunk at h
    rw [if_neg hs] at h
    simp at h

theorem mem_maxChunk {records : List WRecord} {r : WRecord} {a : Anomaly}
    (h : a ∈ maxChunk records r) :
    sigOf records WRecord.tasmax r ∧
      a = nbAnomaly records WRecord.tasmax WeatherDataType.TEMPERATURE (some "tasmax") r := by
  by_cases hs : sigOf records WRecord.tasmax r
  · unfold maxChunk at h
    rw [if_pos hs] at h
    simp at h
    exact ⟨hs, h⟩
  · unfold maxChunk at h
    rw [if_neg hs] at h
    simp at h

theorem mem_minChunk {records : List WRecord} {r : WRecord} {a : Anomaly}
    (h : a ∈ minChunk records r) :
    sigOf records WRecord.tasmin r ∧
      a = nbAnomaly records WRecord.tasmin WeatherDataType.TEMPERATURE (some "tasmin") r := by
  by_cases hs : sigOf records WRecord.tasmin r
  · unfold minChunk at h
    rw [if_pos hs] at h
    simp at h
    exact ⟨hs, h⟩
  · unfold minChunk at h
    rw [if_neg hs] at h
    simp at h

theorem mem_notebook {records : List WRecord} {a : Anomaly}
    (h : a ∈ get_notebook_style_anomalies records) :
    ∃ r ∈ records,
      a ∈ prChunk records r ∨ a ∈ maxChunk records r ∨ a ∈ minChunk records r := by
  unfold get_notebook_style_anomalies at h
  obtain ⟨r, hr, hmem⟩ := List.mem_flatMap.mp h
  rcases List.mem_append.mp hmem with h1 | h2
  · rcases List.mem_append.mp h1 with h1a | h1b
    · exact ⟨r, hr, Or.inl h1a⟩
    · exact ⟨r, hr, Or.inr (Or.inl h1b)⟩
  · exact ⟨r, hr, Or.inr (Or.inr h2)⟩

theorem nbAnomaly_severity {records : List WRecord} {f : WRecord → ℚ}
    {ty : WeatherDataType} {mt : Option String} {r : WRecord} (h : sigOf records f r) :
    (nbAnomaly records f ty mt r).severity = AnomalySeverity.HIGH ∨
    (nbAnomaly records f ty mt r).severity = AnomalySeverity.EXTREME :=
  severity_of_two_le _ (sig_two_le_zStored h)

/-! ### Claim theorems. -/

/-- C9: the statistics kernel returns mean 0.0 on the empty list and the
arithmetic mean otherwise; the sample standard deviation of fewer than 2
values is 0.0 and otherwise is nonnegative with square equal to the
(n-1)-divisor sample variance; `calculate_z_score` with std 0 returns 0 (so
no division by zero ever happens; every output is a real number, never
NaN or infinity) and otherwise divides the deviation by the std. -/
theorem c9_stats_kernel :
    calculate_mean [] = 0
    ∧ (∀ l : List ℚ, l ≠ [] → calculate_mean l = l.sum / l.length)
    ∧ (∀ l : List ℚ, l.length < 2 → calculate_std l = 0)
    ∧ (∀ l : List ℚ, 2 ≤ l.length →
        0 ≤ calculate_std l ∧
        (calculate_std l) ^ 2 =
          (((l.map (fun x => (x - calculate_mean l) ^ 2)).sum : ℚ) : ℝ) /
            ((l.length : ℝ) - 1))
    ∧ (∀ v m : ℝ, calculate_z_score v m 0 = 0)
    ∧ (∀ v m s : ℝ, s ≠ 0 → calculate_z_score v m s = (v - m) / s) := by
  refine ⟨rfl, ?_, ?_, ?_, ?_, ?_⟩
  · intro l hl
    unfold calculate_mean
    rw [if_neg hl]
  · intro l hl
    unfold calculate_std
    rw [if_pos hl]
  · intro l hl
    refine ⟨calculate_std_nonneg l, ?_⟩
    rw [calculate_std_sq l hl]
    unfold sampleVarQ
    push_cast
    ring
  · intro v m
    unfold calculate_z_score
    rw [if_pos rfl]
  · intro v m s hs
    unfold calculate_z_score
    rw [if_neg hs]

/-- C9 witness: the kernel equations evaluated at concrete inputs. -/
theorem c9_stats_kernel_witness :
    calculate_mean [(1 : ℚ), 3] = 2
    ∧ calculate_std [(4 : ℚ)] = 0
    ∧ (calculate_std [(1 : ℚ), 3]) ^ 2 = 2
    ∧ calculate_z_score 5 1 0 = 0
    ∧ calculate_z_score 5 1 2 = 2 := by
  obtain ⟨-, hmean, hstd0, hstd, hz0, hz⟩ := c9_stats_kernel
  refine ⟨?_, ?_, ?_, hz0 5 1, ?_⟩
  · rw [hmean [(1 : ℚ), 3] (by decide)]
    norm_num
  · exact hstd0 [(4 : ℚ)] (by decide)
  · rw [(hstd [(1 : ℚ), 3] (by decide)).2]
    rw [hmean [(1 : ℚ), 3] (by decide)]
    norm_num
  · rw [hz 5 1 2 (by norm_num)]
    norm_num

/-! ### Evaluation of the demo dataset. -/

theorem demo_monthRecords : monthRecords demoRecords 1 = demoRecords := by
  rfl

theorem demo_avg_max : monthlyAvgHistorical demoRecords WRecord.tasmax 1 = 1 := by
  unfold monthlyAvgHistorical
  rw [demo_monthRecords]
  show calculate_mean [0, 0, 0, 0, 0, 0, 0, 0, 9] = 1
  unfold calculate_mean
  rw [if_neg (by decide)]
  norm_num

theorem demo_avg_min : monthlyAvgHistorical demoRecords WRecord.tasmin 1 = 1 := by
  unfold monthlyAvgHistorical
  rw [demo_monthRecords]
  show calculate_mean [0, 0, 0, 0, 0, 0, 0, 0, 9] = 1
  unfold calculate_mean
  rw [if_neg (by decide)]
  norm_num

theorem demo_avg_pr : monthlyAvgHistorical demoRecords WRecord.pr 1 = 0 := by
  unfold monthlyAvgHistorical
  rw [demo_monthRecords]
  show calculate_mean [0, 0, 0, 0, 0, 0, 0, 0, 0] = 0
  unfold calculate_mean
  rw [if_neg (by decide)]
  norm_num

theorem demo_devs_max :
    monthDevs demoRecords WRecord.tasmax 1 = [-1, -1, -1, -1, -1, -1, -1, -1, 8] := by
  unfold monthDevs
  rw [demo_monthRecords, demo_avg_max]
  norm_num [demoRecords, demoR9]

theorem demo_devs_min :
    monthDevs demoRecords WRecord.tasmin 1 = [-1, -1, -1, -1, -1, -1, -1, -1, 8] := by
  unfold monthDevs
  rw [demo_monthRecords, demo_avg_min]
  norm_num [demoRecords, demoR9]

theorem demo_devs_pr :
    monthDevs demoRecords WRecord.pr 1 = [0, 0, 0, 0, 0, 0, 0, 0, 0] := by
  unfold monthDevs
  rw [demo_monthRecords, demo_avg_pr]
  norm_num [demoRecords, demoR9]

theorem demo_var : sampleVarQ [-1, -1, -1, -1, -1, -1, -1, -1, 8] = 9 := by
  norm_num [sampleVarQ, calculate_mean]

theorem demo_std_max : anomalyStdOf demoRecords WRecord.tasmax 1 = some 3 := by
  unfold anomalyStdOf pandasStd
  rw [demo_devs_max]
  rw [if_neg (by norm_num)]
  rw [demo_var, sqrt_cast_eq 9 3 (by norm_num) (by norm_num)]
  norm_num

theorem demo_std_min : anomalyStdOf demoRecords WRecord.tasmin 1 = some 3 := by
  unfold anomalyStdOf pandasStd
  rw [demo_devs_min]
  rw [if_neg (by norm_num)]
  rw [demo_var, sqrt_cast_eq 9 3 (by norm_num) (by norm_num)]
  norm_num

theorem demo_std_pr : anomalyStdOf demoRecords WRecord.pr 1 = some 0 := by
  unfold anomalyStdOf pandasStd
  rw [demo_devs_pr]
  rw [if_neg (by norm_num)]
  rw [show sampleVarQ [0, 0, 0, 0, 0, 0, 0, 0, 0] = 0 by norm_num [sampleVarQ, calculate_mean]]
  norm_num

theorem demo_zRaw_max (r : WRecord) (hm : r.month = 1) :
    zRaw demoRecords WRecord.tasmax r = some (((r.tasmax : ℝ) - 1) / 3) := by
  unfold zRaw
  rw [hm, demo_std_max, pdDiv_some_ne _ 3 (by norm_num)]
  unfold devOf
  rw [hm, demo_avg_max]
  push_cast
  ring_nf

theorem demo_zRaw_min (r : WRecord) (hm : r.month = 1) :
    zRaw demoRecords WRecord.tasmin r = some (((r.tasmin : ℝ) - 1) / 3) := by
  unfold zRaw
  rw [hm, demo_std_min, pdDiv_some_ne _ 3 (by norm_num)]
  unfold devOf
  rw [hm, demo_avg_min]
  push_cast
  ring_nf

theorem demo_zRaw_pr (r : WRecord) (hm : r.month = 1) :
    zRaw demoRecords WRecord.pr r = none := by
  unfold zRaw
  rw [hm, demo_std_pr, pdDiv_some_zero]

theorem demo_prChunk (r : WRecord) (hm : r.month = 1) : prChunk demoRecords r = [] := by
  unfold prChunk
  rw [if_neg (sigOf_not_of_none (demo_zRaw_pr r hm))]

theorem demo_maxChunk_zero (r : WRecord) (hm : r.month = 1) (hv : r.tasmax = 0) :
    maxChunk demoRecords r = [] := by
  unfold maxChunk
  rw [if_neg]
  rw [sigOf_iff_of_some (demo_zRaw_max r hm), hv]
  rw [not_le, abs_lt]
  norm_num

theorem demo_minChunk_zero (r : WRecord) (hm : r.month = 1) (hv : r.tasmin = 0) :
    minChunk demoRecords r = [] := by
  unfold minChunk
  rw [if_neg]
  rw [sigOf_iff_of_some (demo_zRaw_min r hm), hv]
  rw [not_le, abs_lt]
  norm_num

theorem demo_sig_max_r9 : sigOf demoRecords WRecord.tasmax demoR9 := by
  rw [sigOf_iff_of_some (demo_zRaw_max demoR9 rfl)]
  rw [show demoR9.tasmax = 9 from rfl]
  rw [abs_of_nonneg (by norm_num)]
  norm_num

theorem demo_sig_min_r9 : sigOf demoRecords WRecord.tasmin demoR9 := by
  rw [sigOf_iff_of_some (demo_zRaw_min demoR9 rfl)]
  rw [show demoR9.tasmin = 9 from rfl]
  rw [abs_of_nonneg (by norm_num)]
  norm_num

theorem demo_maxChunk_r9 :
    maxChunk demoRecords demoR9 =
      [nbAnomaly demoRecords WRecord.tasmax WeatherDataType.TEMPERATURE (some "tasmax") demoR9] := by
  unfold maxChunk
  rw [if_pos demo_sig_max_r9]

theorem demo_minChunk_r9 :
    minChunk demoRecords demoR9 =
      [nbAnomaly demoRecords WRecord.tasmin WeatherDataType.TEMPERATURE (some "tasmin") demoR9] := by
  unfold minChunk
  rw [if_pos demo_sig_min_r9]

theorem demo_prChunk_r9 : prChunk demoRecords demoR9 = [] :=
  demo_prChunk demoR9 rfl

theorem demo_flatMap (F : WRecord → List Anomaly) :
    demoRecords.flatMap F =
      F ⟨"r1", 1990, 1, 0, 0, 0, none⟩ ++ (F ⟨"r2", 1991, 1, 0, 0, 0, none⟩ ++
      (F ⟨"r3", 1992, 1, 0, 0, 0, none⟩ ++ (F ⟨"r4", 1993, 1, 0, 0, 0, none⟩ ++
      (F ⟨"r5", 1994, 1, 0, 0, 0, none⟩ ++ (F ⟨"r6", 1995, 1, 0, 0, 0, none⟩ ++
      (F ⟨"r7", 1996, 1, 0, 0, 0, none⟩ ++ (F ⟨"r8", 1997, 1, 0, 0, 0, none⟩ ++
      F demoR9))))))) := by
  simp [demoRecords]

theorem demo_notebook_eval :
    get_notebook_style_anomalies demoRecords =
      [nbAnomaly demoRecords WRecord.tasmax WeatherDataType.TEMPERATURE (some "tasmax") demoR9,
       nbAnomaly demoRecords WRecord.tasmin WeatherDataType.TEMPERATURE (some "tasmin") demoR9] := by
  unfold get_notebook_style_anomalies
  rw [demo_flatMap]
  simp only [demo_prChunk, demo_prChunk_r9, demo_maxChunk_zero, demo_minChunk_zero,
    demo_maxChunk_r9, demo_minChunk_r9, List.append_nil, List.nil_append,
    List.cons_append, List.singleton_append]

/-- C2: severity is a pure function of the absolute z-score (extreme iff
2.5 ≤ |z|, high iff 2 ≤ |z| < 2.5, medium iff 1.5 ≤ |z| < 2, low iff
|z| < 1.5, independent of the variable kind), and every anomaly emitted by
the z-score significance path has severity high or extreme, never medium or
low. -/
theorem c2_severity_classifier :
    (∀ z : ℝ,
      (determine_severity z = AnomalySeverity.EXTREME ↔ 2.5 ≤ |z|)
      ∧ (determine_severity z = AnomalySeverity.HIGH ↔ 2 ≤ |z| ∧ |z| < 2.5)
      ∧ (determine_severity z = AnomalySeverity.MEDIUM ↔ 1.5 ≤ |z| ∧ |z| < 2)
      ∧ (determine_severity z = AnomalySeverity.LOW ↔ |z| < 1.5))
    ∧ (∀ z w : ℝ, |z| = |w| → determine_severity z = determine_severity w)
    ∧ (∀ (records : List WRecord) (a : Anomaly),
        a ∈ get_notebook_style_anomalies records →
        a.severity = AnomalySeverity.HIGH ∨ a.severity = AnomalySeverity.EXTREME) := by
  refine ⟨?_, ?_, ?_⟩
  · intro z
    unfold determine_severity
    refine ⟨?_, ?_, ?_, ?_⟩ <;> split_ifs with h1 h2 h3 <;> simp_all <;> intros <;> linarith
  · intro z w h
    unfold determine_severity
    rw [h]
  · intro records a ha
    obtain ⟨r, -, hc⟩ := mem_notebook ha
    rcases hc with hc | hc | hc
    · obtain ⟨hs, rfl⟩ := mem_prChunk hc
      exact nbAnomaly_severity hs
    · obtain ⟨hs, rfl⟩ := mem_maxChunk hc
      exact nbAnomaly_severity hs
    · obtain ⟨hs, rfl⟩ := mem_minChunk hc
      exact nbAnomaly_severity hs

/-- C2 witness: the demo dataset's max-temperature anomaly is an emitted
notebook-path anomaly and its severity is high or extreme (it is in fact
extreme: z = 8/3 ≥ 2.5). -/
theorem c2_severity_classifier_witness :
    nbAnomaly demoRecords WRecord.tasmax WeatherDataType.TEMPERATURE (some "tasmax") demoR9
        ∈ get_notebook_style_anomalies demoRecords
    ∧ ((nbAnomaly demoRecords WRecord.tasmax WeatherDataType.TEMPERATURE
          (some "tasmax") demoR9).severity = AnomalySeverity.HIGH
      ∨ (nbAnomaly demoRecords WRecord.tasmax WeatherDataType.TEMPERATURE
          (some "tasmax") demoR9).severity = AnomalySeverity.EXTREME) := by
  have hmem : nbAnomaly demoRecords WRecord.tasmax WeatherDataType.TEMPERATURE
      (some "tasmax") demoR9 ∈ get_notebook_style_anomalies demoRecords := by
    rw [demo_notebook_eval]
    exact List.mem_cons_self _ _
  exact ⟨hmem, c2_severity_classifier.2.2 demoRecords _ hmem⟩

theorem pdDiv_none (x : ℚ) : pdDiv x none = none := rfl

theorem map_sub_const_sum (g : List WRecord) (f : WRecord → ℚ) (c : ℚ) :
    (g.map (fun x => f x - c)).sum = (g.map f).sum - g.length * c := by
  induction g with
  | nil => simp
  | cons a t ih =>
    simp only [List.map_cons, List.sum_cons, List.length_cons, ih]
    push_cast
    ring

theorem monthDevs_sum_zero (records : List WRecord) (f : WRecord → ℚ) (m : ℤ) :
    (monthDevs records f m).sum = 0 := by
  unfold monthDevs monthlyAvgHistorical calculate_mean
  rcases h : monthRecords records m with _ | ⟨a, t⟩
  · simp
  · rw [map_sub_const_sum]
    rw [if_neg (by simp)]
    rw [List.length_map]
    have hL : ((a :: t).length : ℚ) ≠ 0 := by
      rw [List.length_cons]
      push_cast
      intro hc
      have : (0 : ℚ) ≤ (t.length : ℚ) := by positivity
      linarith
    field_simp

theorem sum_sq_zero {m : ℚ} :
    ∀ {l : List ℚ}, (l.map (fun x => (x - m) ^ 2)).sum = 0 → ∀ x ∈ l, x = m := by
  intro l
  induction l with
  | nil =>
    intro _ x hx
    exact absurd hx (List.not_mem_nil x)
  | cons a t ih =>
    intro h x hx
    rw [List.map_cons, List.sum_cons] at h
    have h1 : 0 ≤ (a - m) ^ 2 := sq_nonneg _
    have h2 : 0 ≤ (t.map (fun x => (x - m) ^ 2)).sum := by
      apply List.sum_nonneg
      intro y hy
      obtain ⟨z, -, rfl⟩ := List.mem_map.mp hy
      positivity
    rcases List.mem_cons.mp hx with rfl | hx2
    · have hsq : (x - m) ^ 2 = 0 := by linarith
      have := (pow_eq_zero_iff two_ne_zero).mp hsq
      linarith [this]
    · exact ih (by linarith) x hx2

theorem sampleVarQ_zero_all {l : List ℚ} (h2 : 2 ≤ l.length) (h : sampleVarQ l = 0) :
    ∀ x ∈ l, x = calculate_mean l := by
  unfold sampleVarQ at h
  have hden : ((l.length : ℚ) - 1) ≠ 0 := by
    have hc : (2 : ℚ) ≤ (l.length : ℚ) := by exact_mod_cast h2
    intro hcon
    linarith
  rw [div_eq_zero_iff] at h
  rcases h with h | h
  · exact sum_sq_zero h
  · exact absurd h hden

theorem pandasStd_eq_some_zero {l : List ℚ} (h : pandasStd l = some 0) :
    2 ≤ l.length ∧ sampleVarQ l = 0 := by
  unfold pandasStd at h
  by_cases hl : l.length < 2
  · rw [if_pos hl] at h
    exact absurd h (by simp)
  · rw [if_neg hl] at h
    have h2 : 2 ≤ l.length := by omega
    refine ⟨h2, ?_⟩
    have hs : Real.sqrt ((sampleVarQ l : ℚ) : ℝ) = 0 := Option.some.inj h
    have hle := Real.sqrt_eq_zero'.mp hs
    have hnn : ((0 : ℚ) : ℝ) ≤ ((sampleVarQ l : ℚ) : ℝ) := by
      exact_mod_cast sampleVarQ_nonneg l h2
    have : ((sampleVarQ l : ℚ) : ℝ) = 0 := le_antisymm hle (by exact_mod_cast hnn)
    exact_mod_cast this

theorem dev_eq_zero_of_std_zero (records : List WRecord) (f : WRecord → ℚ) (r : WRecord)
    (hr : r ∈ records) (h : anomalyStdOf records f r.month = some 0) :
    devOf records f r = 0 := by
  unfold anomalyStdOf at h
  obtain ⟨h2, hvar⟩ := pandasStd_eq_some_zero h
  have hall := sampleVarQ_zero_all h2 hvar
  have hmean : calculate_mean (monthDevs records f r.month) = 0 := by
    unfold calculate_mean
    rcases hd : monthDevs records f r.month with _ | ⟨a, t⟩
    · rfl
    · rw [if_neg (by simp), ← hd, monthDevs_sum_zero]
      simp
  have hdev_mem : devOf records f r ∈ monthDevs records f r.month := by
    unfold monthDevs devOf
    apply List.mem_map.mpr
    refine ⟨r, ?_, rfl⟩
    unfold monthRecords
    apply List.mem_filter.mpr
    exact ⟨hr, by simp⟩
  have := hall _ hdev_mem
  rw [hmean] at this
  exact this

open Classical in
theorem zStored_eq_spec (records : List WRecord) (f : WRecord → ℚ) (r : WRecord) :
    zStored records f r =
      (if calculate_std (monthDevs records f r.month) = 0 then (0 : ℝ)
       else ((devOf records f r : ℚ) : ℝ) / calculate_std (monthDevs records f r.month)) := by
  by_cases hl : (monthDevs records f r.month).length < 2
  · have hstd : calculate_std (monthDevs records f r.month) = 0 := by
      unfold calculate_std
      rw [if_pos hl]
    have hnone : zRaw records f r = none := by
      unfold zRaw anomalyStdOf pandasStd
      rw [if_pos hl, pdDiv_none]
    rw [zStored_of_none hnone, hstd, if_pos rfl]
  · have hsome : anomalyStdOf records f r.month =
        some (calculate_std (monthDevs records f r.month)) := by
      unfold anomalyStdOf pandasStd calculate_std
      rw [if_neg hl, if_neg hl]
    by_cases hz : calculate_std (monthDevs records f r.month) = 0
    · have hnone : zRaw records f r = none := by
        unfold zRaw
        rw [hsome, hz, pdDiv_some_zero]
      rw [zStored_of_none hnone, if_pos hz]
    · have hsomez : zRaw records f r =
          some (((devOf records f r : ℚ) : ℝ) / calculate_std (monthDevs records f r.month)) := by
        unfold zRaw
        rw [hsome, pdDiv_some_ne _ _ hz]
      rw [zStored_of_some hsomez, if_neg hz]

open Classical in
/-- C1: for a nonempty record set, every record's deviation for each variable
is the observed value minus the mean of that variable over all records of the
same calendar month (the scored record included); the stored z-score is that
deviation divided by the sample standard deviation of the month's deviations,
and it is 0 when that standard deviation is 0 (`calculate_std` is also 0 when
the month has fewer than 2 records); the significance flag holds iff the
absolute stored z-score is at least 2.  The final conjunct records why the
zero-std case can only be 0/0 (NaN, filled with 0), never x/0: a zero
anomaly-std forces the record's deviation to be 0. -/
theorem c1_zscore_scorer (records : List WRecord) (_hne : records ≠ [])
    (r : WRecord) (hr : r ∈ records) (f : WRecord → ℚ) :
    devOf records f r =
      f r - calculate_mean ((records.filter (fun x => x.month = r.month)).map f)
    ∧ zStored records f r =
        (if calculate_std (monthDevs records f r.month) = 0 then (0 : ℝ)
         else ((devOf records f r : ℚ) : ℝ) / calculate_std (monthDevs records f r.month))
    ∧ (sigOf records f r ↔ 2 ≤ |zStored records f r|)
    ∧ (anomalyStdOf records f r.month = some 0 → devOf records f r = 0) := by
  refine ⟨rfl, zStored_eq_spec records f r,
    ⟨sig_two_le_zStored, two_le_zStored_sig⟩,
    fun h => dev_eq_zero_of_std_zero records f r hr h⟩

open Classical in
/-- C1 witness: the scorer equations instantiated at a one-record dataset,
where the single record's deviation is 0, its month group has fewer than 2
records, its stored z-score is 0 and it is not significant. -/
theorem c1_zscore_scorer_witness :
    (devOf [demo1] WRecord.pr demo1 =
      WRecord.pr demo1 -
        calculate_mean (([demo1].filter (fun x => x.month = demo1.month)).map WRecord.pr))
    ∧ (zStored [demo1] WRecord.pr demo1 =
        (if calculate_std (monthDevs [demo1] WRecord.pr demo1.month) = 0 then (0 : ℝ)
         else ((devOf [demo1] WRecord.pr demo1 : ℚ) : ℝ) /
           calculate_std (monthDevs [demo1] WRecord.pr demo1.month)))
    ∧ (sigOf [demo1] WRecord.pr demo1 ↔ 2 ≤ |zStored [demo1] WRecord.pr demo1|)
    ∧ zStored [demo1] WRecord.pr demo1 = 0
    ∧ ¬ sigOf [demo1] WRecord.pr demo1 := by
  have h := c1_zscore_scorer [demo1] (by simp) demo1 (by simp) WRecord.pr
  have hnone : zRaw [demo1] WRecord.pr demo1 = none := by
    unfold zRaw anomalyStdOf pandasStd
    rw [if_pos (by decide), pdDiv_none]
  exact ⟨h.1, h.2.1, h.2.2.1, zStored_of_none hnone, sigOf_not_of_none hnone⟩

theorem dedupGo_key_not_seen :
    ∀ (l : List Anomaly) (seen : List (String × WeatherDataType)),
      ∀ a ∈ dedupGo seen l, (a.weather_data_id, a.anomaly_type) ∉ seen := by
  intro l
  induction l with
  | nil =>
    intro seen a ha
    exact absurd ha (List.not_mem_nil a)
  | cons b t ih =>
    intro seen a ha
    unfold dedupGo at ha
    by_cases hb : (b.weather_data_id, b.anomaly_type) ∈ seen
    · rw [if_pos hb] at ha
      exact ih seen a ha
    · rw [if_neg hb] at ha
      rcases List.mem_cons.mp ha with rfl | ha2
      · exact hb
      · have := ih _ a ha2
        intro hc
        exact this (List.mem_cons_of_mem _ hc)

theorem dedupGo_pairwise :
    ∀ (l : List Anomaly) (seen : List (String × WeatherDataType)),
      (dedupGo seen l).Pairwise
        (fun a b => (a.weather_data_id, a.anomaly_type) ≠ (b.weather_data_id, b.anomaly_type)) := by
  intro l
  induction l with
  | nil =>
    intro seen
    exact List.Pairwise.nil
  | cons b t ih =>
    intro seen
    unfold dedupGo
    by_cases hb : (b.weather_data_id, b.anomaly_type) ∈ seen
    · rw [if_pos hb]
      exact ih seen
    · rw [if_neg hb]
      refine List.Pairwise.cons ?_ (ih _)
      intro a ha hc
      have := dedupGo_key_not_seen t _ a ha
      exact this (by rw [← hc]; exact List.mem_cons_self _ _)

theorem dedupGo_filter (k : String × WeatherDataType) :
    ∀ (l : List Anomaly) (seen : List (String × WeatherDataType)),
      (dedupGo seen l).filter (fun a => (a.weather_data_id, a.anomaly_type) = k)
        = if k ∈ seen then []
          else (l.filter (fun a => (a.weather_data_id, a.anomaly_type) = k)).take 1 := by
  intro l
  induction l with
  | nil =>
    intro seen
    by_cases hk : k ∈ seen
    · simp [dedupGo, hk]
    · simp [dedupGo, hk]
  | cons b t ih =>
    intro seen
    unfold dedupGo
    by_cases hb : (b.weather_data_id, b.anomaly_type) ∈ seen
    · rw [if_pos hb, ih]
      by_cases hk : k ∈ seen
      · rw [if_pos hk, if_pos hk]
      · rw [if_neg hk, if_neg hk]
        have hbk : ¬ ((b.weather_data_id, b.anomaly_type) = k) := by
          intro hc
          exact hk (hc ▸ hb)
        rw [List.filter_cons_of_neg (by simpa using hbk)]
    · rw [if_neg hb]
      by_cases hbk : (b.weather_data_id, b.anomaly_type) = k
      · rw [List.filter_cons_of_pos (by simpa using hbk), ih]
        rw [if_pos (by rw [← hbk]; exact List.mem_cons_self _ _)]
        by_cases hk : k ∈ seen
        · exact absurd (hbk ▸ hk) hb
        · rw [if_neg hk, List.filter_cons_of_pos (by simpa using hbk)]
          simp
      · rw [List.filter_cons_of_neg (by simpa using hbk), ih]
        have hmem : k ∈ (b.weather_data_id, b.anomaly_type) :: seen ↔ k ∈ seen := by
          constructor
          · intro h
            rcases List.mem_cons.mp h with h | h
            · exact absurd h.symm hbk
            · exact h
          · exact List.mem_cons_of_mem _
        by_cases hk : k ∈ seen
        · rw [if_pos (hmem.mpr hk), if_pos hk]
        · rw [if_neg (fun hc => hk (hmem.mp hc)), if_neg hk]
          rw [List.filter_cons_of_neg (by simpa using hbk)]

theorem dedup_filter (l : List Anomaly) (k : String × WeatherDataType) :
    (dedupAnomalies l).filter (fun a => (a.weather_data_id, a.anomaly_type) = k)
      = (l.filter (fun a => (a.weather_data_id, a.anomaly_type) = k)).take 1 := by
  unfold dedupAnomalies
  rw [dedupGo_filter]
  rw [if_neg (List.not_mem_nil k)]

theorem filter_flatMap_eq (p : β → Bool) (f : α → List β) (l : List α) :
    (l.flatMap f).filter p = l.flatMap (fun x => (f x).filter p) := by
  induction l with
  | nil => rfl
  | cons a t ih =>
    simp only [List.flatMap_cons, List.filter_append, ih]

theorem chunk_id (records : List WRecord) (r : WRecord) (a : Anomaly)
    (h : a ∈ prChunk records r ∨ a ∈ maxChunk records r ∨ a ∈ minChunk records r) :
    a.weather_data_id = r.id := by
  rcases h with h | h | h
  · obtain ⟨-, rfl⟩ := mem_prChunk h
    rfl
  · obtain ⟨-, rfl⟩ := mem_maxChunk h
    rfl
  · obtain ⟨-, rfl⟩ := mem_minChunk h
    rfl

theorem nb_filter_head (records : List WRecord) (r : WRecord)
    (hnodup : (records.map WRecord.id).Nodup) (hr : r ∈ records)
    (hmax : sigOf records WRecord.tasmax r) :
    ∃ rest, (get_notebook_style_anomalies records).filter
        (fun a => (a.weather_data_id, a.anomaly_type) = (r.id, WeatherDataType.TEMPERATURE))
      = nbAnomaly records WRecord.tasmax WeatherDataType.TEMPERATURE (some "tasmax") r :: rest := by
  obtain ⟨pre, post, hsplit⟩ := List.append_of_mem hr
  subst hsplit
  refine ⟨(minChunk (pre ++ r :: post) r).filter
      (fun a => (a.weather_data_id, a.anomaly_type) = (r.id, WeatherDataType.TEMPERATURE))
    ++ post.flatMap
      (fun x => ((prChunk (pre ++ r :: post) x ++ maxChunk (pre ++ r :: post) x ++
          minChunk (pre ++ r :: post) x).filter
        (fun a => (a.weather_data_id, a.anomaly_type) = (r.id, WeatherDataType.TEMPERATURE)))), ?_⟩
  unfold get_notebook_style_anomalies
  rw [filter_flatMap_eq, List.flatMap_append, List.flatMap_cons]
  have hpre : pre.flatMap
      (fun x => ((prChunk (pre ++ r :: post) x ++ maxChunk (pre ++ r :: post) x ++
          minChunk (pre ++ r :: post) x).filter
        (fun a => (a.weather_data_id, a.anomaly_type) = (r.id, WeatherDataType.TEMPERATURE)))) = [] := by
    apply List.flatMap_eq_nil_iff.mpr
    intro x hx
    apply List.filter_eq_nil_iff.mpr
    intro a ha
    have hid : a.weather_data_id = x.id := by
      apply chunk_id (pre ++ r :: post) x a
      rcases List.mem_append.mp ha with h1 | h2
      · rcases List.mem_append.mp h1 with h1a | h1b
        · exact Or.inl h1a
        · exact Or.inr (Or.inl h1b)
      · exact Or.inr (Or.inr h2)
    have hne : x.id ≠ r.id := by
      rw [List.map_append, List.nodup_append] at hnodup
      intro hc
      exact hnodup.2.2 (List.mem_map_of_mem WRecord.id hx)
        (by rw [hc, List.map_cons]; exact List.mem_cons_self _ _)
    simp only [decide_eq_true_eq, Prod.mk.injEq, not_and]
    intro hc
    exact absurd (hid ▸ hc) hne
  rw [hpre, List.nil_append]
  rw [List.filter_append, List.filter_append]
  have hpr : (prChunk (pre ++ r :: post) r).filter
      (fun a => (a.weather_data_id, a.anomaly_type) = (r.id, WeatherDataType.TEMPERATURE)) = [] := by
    apply List.filter_eq_nil_iff.mpr
    intro a ha
    obtain ⟨-, rfl⟩ := mem_prChunk ha
    simp [nbAnomaly]
  have hmx : (maxChunk (pre ++ r :: post) r).filter
      (fun a => (a.weather_data_id, a.anomaly_type) = (r.id, WeatherDataType.TEMPERATURE))
      = [nbAnomaly (pre ++ r :: post) WRecord.tasmax WeatherDataType.TEMPERATURE (some "tasmax") r] := by
    unfold maxChunk
    rw [if_pos hmax]
    rw [List.filter_cons_of_pos (by simp [nbAnomaly])]
    rfl
  rw [hpr, List.nil_append, hmx, List.cons_append, List.nil_append, List.cons_append]

open Classical in
/-- C3: the deduplicated saved set never holds two entries with the same
(source record id, variable kind) pair; and when a record (in a record set
with distinct ids) is significant on both max- and min-temperature, the saved
set of the full run holds exactly one anomaly keyed (record id, temperature),
namely the max-temperature one — the first enumerated, since the primary path
enumerates precipitation, then max-temperature, then min-temperature per
record and precedes the extreme-event anomalies in the union. -/
theorem c3_dedup_collision (l : List Anomaly) (records : List WRecord) (r : WRecord)
    (hnodup : (records.map WRecord.id).Nodup) (hr : r ∈ records)
    (hmax : sigOf records WRecord.tasmax r) (_hmin : sigOf records WRecord.tasmin r) :
    (dedupAnomalies l).Pairwise
      (fun a b => (a.weather_data_id, a.anomaly_type) ≠ (b.weather_data_id, b.anomaly_type))
    ∧ (dedupAnomalies
          (get_notebook_style_anomalies records ++ detect_extreme_events records)).filter
        (fun a => (a.weather_data_id, a.anomaly_type) = (r.id, WeatherDataType.TEMPERATURE))
      = [nbAnomaly records WRecord.tasmax WeatherDataType.TEMPERATURE (some "tasmax") r] := by
  refine ⟨dedupGo_pairwise l [], ?_⟩
  rw [dedup_filter]
  obtain ⟨rest, hhead⟩ := nb_filter_head records r hnodup hr hmax
  rw [List.filter_append, hhead, List.cons_append]
  rfl

/-- C3 witness: on the demo dataset, where record r9 is significant on both
temperature variables, the deduplicated saved set holds exactly its
max-temperature anomaly under the key (r9, temperature). -/
theorem c3_dedup_collision_witness :
    (dedupAnomalies
        (get_notebook_style_anomalies demoRecords ++ detect_extreme_events demoRecords)).filter
      (fun a => (a.weather_data_id, a.anomaly_type) = (demoR9.id, WeatherDataType.TEMPERATURE))
      = [nbAnomaly demoRecords WRecord.tasmax WeatherDataType.TEMPERATURE (some "tasmax") demoR9] :=
  (c3_dedup_collision [] demoRecords demoR9 (by decide) (by decide)
    demo_sig_max_r9 demo_sig_min_r9).2

theorem exceptFlatMap_ok {f : α → Except Unit (List β)} :
    ∀ {l : List α} {out : List β}, exceptFlatMap f l = Except.ok out →
      (∀ x ∈ l, f x ≠ Except.error ()) ∧ out = l.flatMap (fun x => okD (f x)) := by
  intro l
  induction l with
  | nil =>
    intro out h
    refine ⟨fun x hx => absurd hx (List.not_mem_nil x), ?_⟩
    have : out = [] := (Except.ok.inj h).symm
    simp [this]
  | cons a t ih =>
    intro out h
    unfold exceptFlatMap at h
    rcases hfa : f a with e | y
    · rw [hfa] at h
      exact absurd h (by simp)
    · rw [hfa] at h
      rcases hrest : exceptFlatMap f t with e | ys
      · rw [hrest] at h
        exact absurd h (by simp)
      · rw [hrest] at h
        have hout : out = y ++ ys := (Except.ok.inj h).symm
        obtain ⟨hne, hys⟩ := ih hrest
        constructor
        · intro x hx
          rcases List.mem_cons.mp hx with rfl | hx2
          · rw [hfa]
            simp
          · exact hne x hx2
        · rw [hout, List.flatMap_cons, hfa, hys]
          rfl

theorem exceptFlatMap_error_of_mem {f : α → Except Unit (List β)} :
    ∀ {l : List α} (x : α), x ∈ l → f x = Except.error () →
      exceptFlatMap f l = Except.error () := by
  intro l
  induction l with
  | nil =>
    intro x hx
    exact absurd hx (List.not_mem_nil x)
  | cons a t ih =>
    intro x hx hfx
    unfold exceptFlatMap
    rcases List.mem_cons.mp hx with rfl | hx2
    · rw [hfx]
    · rcases hfa : f a with e | y
      · rcases e
        rfl
      · rw [ih x hx2 hfx]

theorem exceptFlatMap_ne_error {f : α → Except Unit (List β)} :
    ∀ {l : List α}, (∀ x ∈ l, f x ≠ Except.error ()) →
      ∃ out, exceptFlatMap f l = Except.ok out := by
  intro l
  induction l with
  | nil =>
    intro _
    exact ⟨[], rfl⟩
  | cons a t ih =>
    intro h
    obtain ⟨ys, hys⟩ := ih (fun x hx => h x (List.mem_cons_of_mem a hx))
    rcases hfa : f a with e | y
    · rcases e
      exact absurd hfa (h a (List.mem_cons_self a t))
    · refine ⟨y ++ ys, ?_⟩
      unfold exceptFlatMap
      rw [hfa, hys]

theorem flatMap_congr {f g : α → List β} :
    ∀ {l : List α}, (∀ x ∈ l, f x = g x) → l.flatMap f = l.flatMap g := by
  intro l
  induction l with
  | nil =>
    intro _
    rfl
  | cons a t ih =>
    intro h
    rw [List.flatMap_cons, List.flatMap_cons, h a (List.mem_cons_self a t),
      ih (fun x hx => h x (List.mem_cons_of_mem a hx))]

theorem calculate_z_score_of_ne {v m s : ℝ} (h : s ≠ 0) :
    calculate_z_score v m s = (v - m) / s := by
  unfold calculate_z_score
  rw [if_neg h]

theorem extremeCheck_error_iff (ty : WeatherDataType) (ext : ℚ) (vals : List ℚ)
    (rid : String) :
    extremeCheck ty ext vals rid = Except.error () ↔ calculate_std vals = 0 := by
  unfold extremeCheck
  by_cases h : calculate_std vals = 0
  · rw [if_pos h]
    simp [h]
  · rw [if_neg h]
    simp [h]

theorem extremeCheck_ok (ty : WeatherDataType) (ext : ℚ) (vals : List ℚ) (rid : String)
    (h : calculate_std vals ≠ 0) :
    extremeCheck ty ext vals rid = Except.ok (specExtremeCheck ty ext vals rid) := by
  unfold extremeCheck specExtremeCheck
  rw [if_neg h, calculate_z_score_of_ne h]

theorem extremeCheck_ok_inv {ty : WeatherDataType} {ext : ℚ} {vals : List ℚ}
    {rid : String} {y : List Anomaly} (h : extremeCheck ty ext vals rid = Except.ok y) :
    y = specExtremeCheck ty ext vals rid := by
  by_cases hstd : calculate_std vals = 0
  · rw [(extremeCheck_error_iff ty ext vals rid).mpr hstd] at h
    exact absurd h (by simp)
  · rw [extremeCheck_ok ty ext vals rid hstd] at h
    exact (Except.ok.inj h).symm

theorem extremeRecordChecks_ok {r : WRecord} {maxT minT maxP : ℚ}
    {maxTs minTs prs : List ℚ} {out : List Anomaly}
    (h : extremeRecordChecks r maxT minT maxP maxTs minTs prs = Except.ok out) :
    out =
      (if r.tasmax = maxT then
        specExtremeCheck WeatherDataType.TEMPERATURE maxT maxTs r.id else [])
      ++ (if r.tasmin = minT then
        specExtremeCheck WeatherDataType.TEMPERATURE minT minTs r.id else [])
      ++ (if r.pr = maxP then
        specExtremeCheck WeatherDataType.PRECIPITATION maxP prs r.id else []) := by
  unfold extremeRecordChecks at h
  rcases hA : (if r.tasmax = maxT then
      extremeCheck WeatherDataType.TEMPERATURE maxT maxTs r.id else Except.ok []) with e | a
  · rw [hA] at h
    exact absurd h (by simp)
  · rw [hA] at h
    rcases hB : (if r.tasmin = minT then
        extremeCheck WeatherDataType.TEMPERATURE minT minTs r.id else Except.ok []) with e | b
    · rw [hB] at h
      exact absurd h (by simp)
    · rw [hB] at h
      rcases hC : (if r.pr = maxP then
          extremeCheck WeatherDataType.PRECIPITATION maxP prs r.id else Except.ok []) with e | c
      · rw [hC] at h
        exact absurd h (by simp)
      · rw [hC] at h
        have hout : out = a ++ b ++ c := (Except.ok.inj h).symm
        have ha : a = (if r.tasmax = maxT then
            specExtremeCheck WeatherDataType.TEMPERATURE maxT maxTs r.id else []) := by
          by_cases h1 : r.tasmax = maxT
          · rw [if_pos h1] at hA
            rw [if_pos h1]
            exact extremeCheck_ok_inv hA
          · rw [if_neg h1] at hA
            rw [if_neg h1]
            exact (Except.ok.inj hA).symm
        have hb : b = (if r.tasmin = minT then
            specExtremeCheck WeatherDataType.TEMPERATURE minT minTs r.id else []) := by
          by_cases h1 : r.tasmin = minT
          · rw [if_pos h1] at hB
            rw [if_pos h1]
            exact extremeCheck_ok_inv hB
          · rw [if_neg h1] at hB
            rw [if_neg h1]
            exact (Except.ok.inj hB).symm
        have hc : c = (if r.pr = maxP then
            specExtremeCheck WeatherDataType.PRECIPITATION maxP prs r.id else []) := by
          by_cases h1 : r.pr = maxP
          · rw [if_pos h1] at hC
            rw [if_pos h1]
            exact extremeCheck_ok_inv hC
          · rw [if_neg h1] at hC
            rw [if_neg h1]
            exact (Except.ok.inj hC).symm
        rw [hout, ha, hb, hc]

theorem extremeRecordChecks_ne_error {r : WRecord} {maxT minT maxP : ℚ}
    {maxTs minTs prs : List ℚ}
    (h1 : r.tasmax = maxT → calculate_std maxTs ≠ 0)
    (h2 : r.tasmin = minT → calculate_std minTs ≠ 0)
    (h3 : r.pr = maxP → calculate_std prs ≠ 0) :
    extremeRecordChecks r maxT minT maxP maxTs minTs prs ≠ Except.error () := by
  unfold extremeRecordChecks
  have hA : ∃ a, (if r.tasmax = maxT then
      extremeCheck WeatherDataType.TEMPERATURE maxT maxTs r.id else Except.ok [])
      = Except.ok a := by
    by_cases hc : r.tasmax = maxT
    · rw [if_pos hc, extremeCheck_ok _ _ _ _ (h1 hc)]
      exact ⟨_, rfl⟩
    · rw [if_neg hc]
      exact ⟨[], rfl⟩
  have hB : ∃ b, (if r.tasmin = minT then
      extremeCheck WeatherDataType.TEMPERATURE minT minTs r.id else Except.ok [])
      = Except.ok b := by
    by_cases hc : r.tasmin = minT
    · rw [if_pos hc, extremeCheck_ok _ _ _ _ (h2 hc)]
      exact ⟨_, rfl⟩
    · rw [if_neg hc]
      exact ⟨[], rfl⟩
  have hC : ∃ c, (if r.pr = maxP then
      extremeCheck WeatherDataType.PRECIPITATION maxP prs r.id else Except.ok [])
      = Except.ok c := by
    by_cases hc : r.pr = maxP
    · rw [if_pos hc, extremeCheck_ok _ _ _ _ (h3 hc)]
      exact ⟨_, rfl⟩
    · rw [if_neg hc]
      exact ⟨[], rfl⟩
  obtain ⟨a, ha⟩ := hA
  obtain ⟨b, hb⟩ := hB
  obtain ⟨c, hc⟩ := hC
  rw [ha, hb, hc]
  simp

theorem extremeMonth_ok {records : List WRecord} {m : ℤ} {out : List Anomaly}
    (h : extremeMonth records m = Except.ok out) :
    out = specExtremeMonth records m := by
  unfold extremeMonth at h
  unfold specExtremeMonth
  by_cases hlen : (monthRecords records m).length < 10
  · rw [if_pos hlen] at h
    rw [if_pos hlen]
    exact (Except.ok.inj h).symm
  · rw [if_neg hlen] at h
    rw [if_neg hlen]
    obtain ⟨hne, hout⟩ := exceptFlatMap_ok h
    rw [hout]
    apply flatMap_congr
    intro r hr
    rcases hrc : extremeRecordChecks r
        (pyMax ((monthRecords records m).map WRecord.tasmax))
        (pyMin ((monthRecords records m).map WRecord.tasmin))
        (pyMax ((monthRecords records m).map WRecord.pr))
        ((monthRecords records m).map WRecord.tasmax)
        ((monthRecords records m).map WRecord.tasmin)
        ((monthRecords records m).map WRecord.pr) with e | y
    · rcases e
      exact absurd hrc (hne r hr)
    · show y = _
      exact extremeRecordChecks_ok hrc

theorem mem_specExtremeCheck {ty : WeatherDataType} {ext : ℚ} {vals : List ℚ}
    {rid : String} {a : Anomaly} (h : a ∈ specExtremeCheck ty ext vals rid) :
    a.severity = AnomalySeverity.EXTREME ∧ a.weather_data_id = rid := by
  unfold specExtremeCheck at h
  by_cases hc : 2 ≤ |calculate_z_score (ext : ℝ) ((calculate_mean vals : ℚ) : ℝ)
      (calculate_std vals)|
  · rw [if_pos hc] at h
    simp at h
    rw [h]
    exact ⟨rfl, rfl⟩
  · rw [if_neg hc] at h
    exact absurd h (List.not_mem_nil a)

theorem mem_ite_specCheck {c : Prop} [Decidable c] {ty : WeatherDataType} {ext : ℚ}
    {vals : List ℚ} {rid : String} {a : Anomaly}
    (h : a ∈ (if c then specExtremeCheck ty ext vals rid else [])) :
    a.severity = AnomalySeverity.EXTREME := by
  by_cases hc : c
  · rw [if_pos hc] at h
    exact (mem_specExtremeCheck h).1
  · rw [if_neg hc] at h
    exact absurd h (List.not_mem_nil a)

/-- C5 (amended): whenever the extreme-event detector completes without
raising (its z-score division raises on a zero-variance month, and the
blanket handler then returns the empty list for every month — see the
counterexample), its output is exactly the spec's: nothing for months with fewer than 10 records, and for each month
with at least 10 records one anomaly per record tying the month's cross-year
extreme (max temperature high, min temperature low, precipitation high — all
ties qualify) iff the z-score of the extreme against the month's raw values
has absolute value at least 2; every emitted anomaly has severity fixed to
extreme. -/
theorem detectE_ok_spec {records : List WRecord} {out : List Anomaly}
    (h : detectExtremeEventsE records = Except.ok out) :
    out = extremeEventsSpec records := by
  obtain ⟨hne, hout⟩ := exceptFlatMap_ok h
  rw [hout]
  unfold extremeEventsSpec
  apply flatMap_congr
  intro m hm
  rcases hm2 : extremeMonth records m with e | y
  · rcases e
    exact absurd hm2 (hne m hm)
  · show y = _
    exact extremeMonth_ok hm2

theorem mem_extremeEventsSpec_severity {records : List WRecord} {a : Anomaly}
    (ha : a ∈ extremeEventsSpec records) : a.severity = AnomalySeverity.EXTREME := by
  unfold extremeEventsSpec at ha
  obtain ⟨m, hm, ha2⟩ := List.mem_flatMap.mp ha
  unfold specExtremeMonth at ha2
  by_cases hlen : (monthRecords records m).length < 10
  · rw [if_pos hlen] at ha2
    exact absurd ha2 (List.not_mem_nil a)
  · rw [if_neg hlen] at ha2
    obtain ⟨r, hr, ha3⟩ := List.mem_flatMap.mp ha2
    rcases List.mem_append.mp ha3 with h4 | h4
    · rcases List.mem_append.mp h4 with h5 | h5
      · exact mem_ite_specCheck h5
      · exact mem_ite_specCheck h5
    · exact mem_ite_specCheck h4

theorem c5_extreme_events (records : List WRecord) (out : List Anomaly)
    (h : detectExtremeEventsE records = Except.ok out) :
    out = extremeEventsSpec records
    ∧ (∀ a ∈ out, a.severity = AnomalySeverity.EXTREME)
    ∧ (∀ m : ℤ, (monthRecords records m).length < 10 → specExtremeMonth records m = []) := by
  have h1 : out = extremeEventsSpec records := detectE_ok_spec h
  refine ⟨h1, ?_, ?_⟩
  · intro a ha
    rw [h1] at ha
    exact mem_extremeEventsSpec_severity ha
  · intro m hlen
    unfold specExtremeMonth
    rw [if_pos hlen]

theorem calculate_std_ne_zero {l : List ℚ} (h2 : 2 ≤ l.length) (h : 0 < sampleVarQ l) :
    calculate_std l ≠ 0 := by
  unfold calculate_std
  rw [if_neg (by omega)]
  rw [Ne, Real.sqrt_eq_zero']
  exact not_le.mpr (by exact_mod_cast h)

theorem calculate_mean_cons (a : ℚ) (l : List ℚ) :
    calculate_mean (a :: l) = (a :: l).sum / (a :: l).length := by
  unfold calculate_mean
  rw [if_neg (by simp)]

theorem c5_std_max : calculate_std ((monthRecords c5Records 1).map WRecord.tasmax) ≠ 0 := by
  rw [show (monthRecords c5Records 1).map WRecord.tasmax
      = [0, 0, 0, 0, 0, 0, 0, 0, 0, 10] from rfl]
  apply calculate_std_ne_zero (by norm_num)
  rw [show sampleVarQ [(0 : ℚ), 0, 0, 0, 0, 0, 0, 0, 0, 10] = 10 by
    norm_num [sampleVarQ, calculate_mean_cons]]
  norm_num

theorem c5_std_min : calculate_std ((monthRecords c5Records 1).map WRecord.tasmin) ≠ 0 := by
  rw [show (monthRecords c5Records 1).map WRecord.tasmin
      = [0, 0, 0, 0, 0, 0, 0, 0, 0, -10] from rfl]
  apply calculate_std_ne_zero (by norm_num)
  rw [show sampleVarQ [(0 : ℚ), 0, 0, 0, 0, 0, 0, 0, 0, -10] = 10 by
    norm_num [sampleVarQ, calculate_mean_cons]]
  norm_num

theorem c5_std_pr : calculate_std ((monthRecords c5Records 1).map WRecord.pr) ≠ 0 := by
  rw [show (monthRecords c5Records 1).map WRecord.pr
      = [0, 1, 0, 1, 0, 1, 0, 1, 0, 1] from rfl]
  apply calculate_std_ne_zero (by norm_num)
  rw [show sampleVarQ [(0 : ℚ), 1, 0, 1, 0, 1, 0, 1, 0, 1] = 5 / 18 by
    norm_num [sampleVarQ, calculate_mean_cons]]
  norm_num

theorem c5_no_error : ∃ out, detectExtremeEventsE c5Records = Except.ok out := by
  have hok1 : extremeMonth c5Records 1 ≠ Except.error () := by
    unfold extremeMonth
    rw [if_neg (by decide)]
    have hrec : ∀ r ∈ monthRecords c5Records 1,
        extremeRecordChecks r (pyMax ((monthRecords c5Records 1).map WRecord.tasmax))
          (pyMin ((monthRecords c5Records 1).map WRecord.tasmin))
          (pyMax ((monthRecords c5Records 1).map WRecord.pr))
          ((monthRecords c5Records 1).map WRecord.tasmax)
          ((monthRecords c5Records 1).map WRecord.tasmin)
          ((monthRecords c5Records 1).map WRecord.pr) ≠ Except.error () := by
      intro r _
      exact extremeRecordChecks_ne_error (fun _ => c5_std_max) (fun _ => c5_std_min)
        (fun _ => c5_std_pr)
    obtain ⟨out, hout⟩ := exceptFlatMap_ne_error hrec
    rw [hout]
    simp
  have hmonths : ∀ m ∈ monthsOf c5Records, extremeMonth c5Records m ≠ Except.error () := by
    rw [show monthsOf c5Records = [1] by decide]
    intro m hm
    rcases List.mem_singleton.mp hm with rfl
    exact hok1
  obtain ⟨out, hout⟩ := exceptFlatMap_ne_error hmonths
  exact ⟨out, hout⟩

/-- C5 witness: on the ten-record dataset the detector completes without
raising, so the theorem yields its output equal to the spec's and all
severities extreme. -/
theorem c5_extreme_events_witness :
    ∃ out, detectExtremeEventsE c5Records = Except.ok out
      ∧ out = extremeEventsSpec c5Records
      ∧ ∀ a ∈ out, a.severity = AnomalySeverity.EXTREME := by
  obtain ⟨out, hE⟩ := c5_no_error
  exact ⟨out, hE, (c5_extreme_events c5Records out hE).1,
    (c5_extreme_events c5Records out hE).2.1⟩


theorem sum_all_eq {c : ℚ} : ∀ {l : List ℚ}, (∀ x ∈ l, x = c) → l.sum = l.length * c := by
  intro l
  induction l with
  | nil =>
    intro _
    simp
  | cons a t ih =>
    intro h
    rw [List.sum_cons, h a (List.mem_cons_self a t),
      ih (fun x hx => h x (List.mem_cons_of_mem a hx)), List.length_cons]
    push_cast
    ring

theorem calculate_mean_all_eq {l : List ℚ} {c : ℚ} (hne : l ≠ [])
    (h : ∀ x ∈ l, x = c) : calculate_mean l = c := by
  rcases l with _ | ⟨a, t⟩
  · exact absurd rfl hne
  · rw [calculate_mean_cons, sum_all_eq h]
    have hL : ((a :: t).length : ℚ) ≠ 0 := by
      rw [List.length_cons]
      push_cast
      intro hc
      have : (0 : ℚ) ≤ (t.length : ℚ) := by positivity
      linarith
    field_simp

theorem sampleVarQ_all_eq {l : List ℚ} {c : ℚ} (h2 : 2 ≤ l.length)
    (h : ∀ x ∈ l, x = c) : sampleVarQ l = 0 := by
  unfold sampleVarQ
  have hne : l ≠ [] := by
    intro hc
    rw [hc] at h2
    simp at h2
  rw [calculate_mean_all_eq hne h]
  have hz : (l.map (fun x => (x - c) ^ 2)).sum = 0 := by
    apply List.sum_eq_zero
    intro y hy
    obtain ⟨x, hx, rfl⟩ := List.mem_map.mp hy
    rw [h x hx]
    ring
  rw [hz, zero_div]

theorem calculate_std_all_eq {l : List ℚ} {c : ℚ} (h2 : 2 ≤ l.length)
    (h : ∀ x ∈ l, x = c) : calculate_std l = 0 := by
  unfold calculate_std
  rw [if_neg (by omega), sampleVarQ_all_eq h2 h]
  simp

theorem foldl_max_const {c : ℚ} : ∀ (t : List ℚ), (∀ x ∈ t, x = c) → t.foldl max c = c := by
  intro t
  induction t with
  | nil =>
    intro _
    rfl
  | cons b s ih =>
    intro h
    rw [List.foldl_cons, h b (List.mem_cons_self b s), max_self]
    exact ih (fun x hx => h x (List.mem_cons_of_mem b hx))

theorem pyMax_all_eq {l : List ℚ} {c : ℚ} (hne : l ≠ []) (h : ∀ x ∈ l, x = c) :
    pyMax l = c := by
  rcases l with _ | ⟨a, t⟩
  · exact absurd rfl hne
  · unfold pyMax
    rw [h a (List.mem_cons_self a t)]
    exact foldl_max_const t (fun x hx => h x (List.mem_cons_of_mem a hx))

theorem foldl_min_const {c : ℚ} : ∀ (t : List ℚ), (∀ x ∈ t, x = c) → t.foldl min c = c := by
  intro t
  induction t with
  | nil =>
    intro _
    rfl
  | cons b s ih =>
    intro h
    rw [List.foldl_cons, h b (List.mem_cons_self b s), min_self]
    exact ih (fun x hx => h x (List.mem_cons_of_mem b hx))

theorem pyMin_all_eq {l : List ℚ} {c : ℚ} (hne : l ≠ []) (h : ∀ x ∈ l, x = c) :
    pyMin l = c := by
  rcases l with _ | ⟨a, t⟩
  · exact absurd rfl hne
  · unfold pyMin
    rw [h a (List.mem_cons_self a t)]
    exact foldl_min_const t (fun x hx => h x (List.mem_cons_of_mem a hx))

theorem extremeRecordChecks_error_of {r : WRecord} {maxT minT maxP : ℚ}
    {maxTs minTs prs : List ℚ}
    (h : (r.tasmax = maxT ∧ calculate_std maxTs = 0)
       ∨ (r.tasmin = minT ∧ calculate_std minTs = 0)
       ∨ (r.pr = maxP ∧ calculate_std prs = 0)) :
    extremeRecordChecks r maxT minT maxP maxTs minTs prs = Except.error () := by
  unfold extremeRecordChecks
  rcases h with ⟨htie, hstd⟩ | ⟨htie, hstd⟩ | ⟨htie, hstd⟩
  · rw [if_pos htie, (extremeCheck_error_iff _ _ _ _).mpr hstd]
  · rcases hA : (if r.tasmax = maxT then
        extremeCheck WeatherDataType.TEMPERATURE maxT maxTs r.id else Except.ok []) with e | a
    · rcases e
      rfl
    · rw [if_pos htie, (extremeCheck_error_iff _ _ _ _).mpr hstd]
  · rcases hA : (if r.tasmax = maxT then
        extremeCheck WeatherDataType.TEMPERATURE maxT maxTs r.id else Except.ok []) with e | a
    · rcases e
      rfl
    · rcases hB : (if r.tasmin = minT then
          extremeCheck WeatherDataType.TEMPERATURE minT minTs r.id else Except.ok []) with e | b
      · rcases e
        rfl
      · rw [if_pos htie, (extremeCheck_error_iff _ _ _ _).mpr hstd]

theorem monthsOf_aux : ∀ (l : List WRecord) (acc : List ℤ) (m : ℤ),
    m ∈ l.foldl (fun acc r => if r.month ∈ acc then acc else acc ++ [r.month]) acc ↔
      m ∈ acc ∨ ∃ r ∈ l, r.month = m := by
  intro l
  induction l with
  | nil =>
    intro acc m
    simp
  | cons a t ih =>
    intro acc m
    rw [List.foldl_cons]
    by_cases hc : a.month ∈ acc
    · rw [if_pos hc, ih]
      constructor
      · rintro (h | ⟨r, hr, hm⟩)
        · exact Or.inl h
        · exact Or.inr ⟨r, List.mem_cons_of_mem a hr, hm⟩
      · rintro (h | ⟨r, hr, hm⟩)
        · exact Or.inl h
        · rcases List.mem_cons.mp hr with rfl | hr2
          · exact Or.inl (hm ▸ hc)
          · exact Or.inr ⟨r, hr2, hm⟩
    · rw [if_neg hc, ih]
      constructor
      · rintro (h | ⟨r, hr, hm⟩)
        · rcases List.mem_append.mp h with h1 | h2
          · exact Or.inl h1
          · have hm2 : m = a.month := by simpa using h2
            exact Or.inr ⟨a, List.mem_cons_self a t, hm2.symm⟩
        · exact Or.inr ⟨r, List.mem_cons_of_mem a hr, hm⟩
      · rintro (h | ⟨r, hr, hm⟩)
        · exact Or.inl (List.mem_append.mpr (Or.inl h))
        · rcases List.mem_cons.mp hr with rfl | hr2
          · exact Or.inl (List.mem_append.mpr (Or.inr (by simp [hm])))
          · exact Or.inr ⟨r, hr2, hm⟩

theorem mem_monthsOf {records : List WRecord} {m : ℤ} :
    m ∈ monthsOf records ↔ ∃ r ∈ records, r.month = m := by
  unfold monthsOf
  rw [monthsOf_aux]
  simp

theorem degenerate_month_error (records : List WRecord) (m : ℤ) (c : ℚ)
    (hlen : 10 ≤ (monthRecords records m).length)
    (hall : (∀ r ∈ monthRecords records m, r.tasmax = c)
          ∨ (∀ r ∈ monthRecords records m, r.tasmin = c)
          ∨ (∀ r ∈ monthRecords records m, r.pr = c)) :
    detectExtremeEventsE records = Except.error ()
    ∧ detect_extreme_events records = [] := by
  have hg : monthRecords records m ≠ [] := by
    intro hc
    rw [hc] at hlen
    simp at hlen
  have hmm : m ∈ monthsOf records := by
    rcases hgr : monthRecords records m with _ | ⟨r0, rest⟩
    · exact absurd hgr hg
    · have hr0 : r0 ∈ monthRecords records m := by
        rw [hgr]
        exact List.mem_cons_self r0 rest
      unfold monthRecords at hr0
      obtain ⟨hmem, hmon⟩ := List.mem_filter.mp hr0
      exact mem_monthsOf.mpr ⟨r0, hmem, by simpa using hmon⟩
  have hmonth_err : extremeMonth records m = Except.error () := by
    unfold extremeMonth
    rw [if_neg (by omega)]
    rcases hgr : monthRecords records m with _ | ⟨r0, rest⟩
    · exact absurd hgr hg
    · rw [hgr] at hall hlen
      apply exceptFlatMap_error_of_mem r0 (List.mem_cons_self r0 rest)
      apply extremeRecordChecks_error_of
      rcases hall with hv | hv | hv
      · have hmap : ∀ x ∈ (r0 :: rest).map WRecord.tasmax, x = c := by
          intro x hx
          obtain ⟨r, hr, rfl⟩ := List.mem_map.mp hx
          exact hv r hr
        refine Or.inl ⟨?_, ?_⟩
        · rw [hv r0 (List.mem_cons_self r0 rest)]
          symm
          apply pyMax_all_eq _ hmap
          simp
        · apply calculate_std_all_eq (c := c) _ hmap
          rw [List.length_map]
          omega
      · have hmap : ∀ x ∈ (r0 :: rest).map WRecord.tasmin, x = c := by
          intro x hx
          obtain ⟨r, hr, rfl⟩ := List.mem_map.mp hx
          exact hv r hr
        refine Or.inr (Or.inl ⟨?_, ?_⟩)
        · rw [hv r0 (List.mem_cons_self r0 rest)]
          symm
          apply pyMin_all_eq _ hmap
          simp
        · apply calculate_std_all_eq (c := c) _ hmap
          rw [List.length_map]
          omega
      · have hmap : ∀ x ∈ (r0 :: rest).map WRecord.pr, x = c := by
          intro x hx
          obtain ⟨r, hr, rfl⟩ := List.mem_map.mp hx
          exact hv r hr
        refine Or.inr (Or.inr ⟨?_, ?_⟩)
        · rw [hv r0 (List.mem_cons_self r0 rest)]
          symm
          apply pyMax_all_eq _ hmap
          simp
        · apply calculate_std_all_eq (c := c) _ hmap
          rw [List.length_map]
          omega
  have hE : detectExtremeEventsE records = Except.error () :=
    exceptFlatMap_error_of_mem m hmm hmonth_err
  refine ⟨hE, ?_⟩
  unfold detect_extreme_events
  rw [hE]
  rfl

/-- C4 (code bug evidence): the stats kernel does define the z-score as 0
when the std is 0, but `detect_extreme_events` bypasses it and divides
directly: on a ten-record month whose values are all equal the division
raises ZeroDivisionError (the `Except.error` of the embedding); the blanket
handler turns the whole run's detections into the empty list, instead of the
claimed skip-and-continue with z = 0. -/
theorem c4_degenerate_variance :
    (∀ v m : ℝ, calculate_z_score v m 0 = 0)
    ∧ detectExtremeEventsE c4Records = Except.error ()
    ∧ detect_extreme_events c4Records = [] := by
  have h := degenerate_month_error c4Records 1 5 (by decide) (Or.inl (by decide))
  refine ⟨fun v m => ?_, h.1, h.2⟩
  unfold calculate_z_score
  rw [if_pos rfl]

/-- C6 (amended): a month with at least 10 records whose values for any one
of the three checked variables (max temperature, min temperature or
precipitation) are all equal makes the z-score division of the extreme-event
detector raise ZeroDivisionError; the blanket handler catches it and the
detector returns the empty list — no AnomalyRecord at all is emitted, not
one per tying record. -/
theorem c6_degenerate_extreme (records : List WRecord) (m : ℤ) (c : ℚ)
    (hlen : 10 ≤ (monthRecords records m).length)
    (hall : (∀ r ∈ monthRecords records m, r.tasmax = c)
          ∨ (∀ r ∈ monthRecords records m, r.tasmin = c)
          ∨ (∀ r ∈ monthRecords records m, r.pr = c)) :
    detectExtremeEventsE records = Except.error ()
    ∧ detect_extreme_events records = [] :=
  degenerate_month_error records m c hlen hall

/-- C6 witness: the amended statement applied to a month degenerate in
max temperature (all three variables constant would do as well) and to a
month degenerate in min temperature only, where the max-temperature checks
complete before the min-temperature division raises. -/
theorem c6_degenerate_extreme_witness :
    (detectExtremeEventsE c6Records = Except.error ()
      ∧ detect_extreme_events c6Records = [])
    ∧ (detectExtremeEventsE c6bRecords = Except.error ()
      ∧ detect_extreme_events c6bRecords = []) :=
  ⟨c6_degenerate_extreme c6Records 2 7 (by decide) (Or.inl (by decide)),
   c6_degenerate_extreme c6bRecords 3 4 (by decide) (Or.inr (Or.inl (by decide)))⟩

/-- C6 counterexample: month 2 of this dataset has 10 records all holding
the degenerate max-temperature extreme 7, yet the detector emits no anomaly
at all — not one per tying record as the claim states. -/
theorem c6_degenerate_extreme_counterexample :
    detect_extreme_events c6Records = []
    ∧ (monthRecords c6Records 2).length = 10
    ∧ (∀ r ∈ monthRecords c6Records 2, r.tasmax = 7) :=
  ⟨(degenerate_month_error c6Records 2 7 (by decide) (Or.inl (by decide))).2,
    by decide, by decide⟩

/-- C5 counterexample: month 2 of this two-month dataset has ten records and
a qualifying extreme — the spec emits an anomaly for it — but the detector
returns the empty list, because month 1's zero variance raises
ZeroDivisionError and the handler discards every month's detections. -/
theorem c5_extreme_events_counterexample :
    detect_extreme_events c5bRecords = []
    ∧ (∃ a, a ∈ extremeEventsSpec c5bRecords) := by
  refine ⟨(degenerate_month_error c5bRecords 1 5 (by decide) (Or.inl (by decide))).2, ?_⟩
  have hcond : 2 ≤ |calculate_z_score
      ((pyMax ((monthRecords c5bRecords 2).map WRecord.tasmax) : ℚ) : ℝ)
      ((calculate_mean ((monthRecords c5bRecords 2).map WRecord.tasmax) : ℚ) : ℝ)
      (calculate_std ((monthRecords c5bRecords 2).map WRecord.tasmax))| := by
    rw [show pyMax ((monthRecords c5bRecords 2).map WRecord.tasmax) = 10 from by decide]
    rw [show (monthRecords c5bRecords 2).map WRecord.tasmax
      = [0, 0, 0, 0, 0, 0, 0, 0, 0, 10] from rfl]
    rw [show calculate_mean [(0 : ℚ), 0, 0, 0, 0, 0, 0, 0, 0, 10] = 1 by
      rw [calculate_mean_cons]; norm_num]
    rw [show calculate_std [(0 : ℚ), 0, 0, 0, 0, 0, 0, 0, 0, 10] = Real.sqrt 10 by
      unfold calculate_std
      rw [if_neg (by norm_num)]
      rw [show sampleVarQ [(0 : ℚ), 0, 0, 0, 0, 0, 0, 0, 0, 10] = 10 by
        norm_num [sampleVarQ, calculate_mean_cons]]
      norm_num]
    rw [calculate_z_score_of_ne (Real.sqrt_ne_zero'.mpr (by norm_num))]
    rw [le_abs_div_sqrt_iff 2 _ 10 (by norm_num) (by norm_num)]
    push_cast
    norm_num
  have hcheck : ∃ a, a ∈ specExtremeCheck WeatherDataType.TEMPERATURE
      (pyMax ((monthRecords c5bRecords 2).map WRecord.tasmax))
      ((monthRecords c5bRecords 2).map WRecord.tasmax) "g10" := by
    unfold specExtremeCheck
    rw [if_pos hcond]
    exact ⟨_, List.mem_singleton_self _⟩
  obtain ⟨aX, haX⟩ := hcheck
  refine ⟨aX, ?_⟩
  unfold extremeEventsSpec
  apply List.mem_flatMap.mpr
  refine ⟨2, by decide, ?_⟩
  unfold specExtremeMonth
  rw [if_neg (by decide)]
  apply List.mem_flatMap.mpr
  refine ⟨⟨"g10", 1999, 2, 1, 10, -10, none⟩, by decide, ?_⟩
  apply List.mem_append_left
  apply List.mem_append_left
  rw [if_pos (by decide)]
  exact haX

theorem getTasList_error_of_mem :
    ∀ {records : List WRecord}, (∃ r ∈ records, r.tas = none) →
      getTasList records = Except.error () := by
  intro records
  induction records with
  | nil =>
    rintro ⟨r, hr, -⟩
    exact absurd hr (List.not_mem_nil r)
  | cons a t ih =>
    rintro ⟨r, hr, hnone⟩
    unfold getTasList
    rcases List.mem_cons.mp hr with rfl | hr2
    · rw [hnone]
    · rcases ha : a.tas with _ | v
      · rfl
      · rw [ih ⟨r, hr2, hnone⟩]

theorem getTasList_ok :
    ∀ {records : List WRecord}, (∀ r ∈ records, r.tas ≠ none) →
      getTasList records = Except.ok (records.map (fun r => r.tas.getD 0)) := by
  intro records
  induction records with
  | nil =>
    intro _
    rfl
  | cons a t ih =>
    intro h
    unfold getTasList
    rcases ha : a.tas with _ | v
    · exact absurd ha (h a (List.mem_cons_self a t))
    · rw [ih (fun r hr => h r (List.mem_cons_of_mem a hr))]
      rw [List.map_cons, ha]
      rfl

theorem movingE_ok (records : List WRecord) (W : ℕ)
    (hall : ∀ r ∈ records, r.tas ≠ none) (hW : W ≤ records.length)
    (hne : records ≠ []) :
    detectMovingAverageE records W = Except.ok (movingSpec records W) := by
  unfold detectMovingAverageE
  rw [if_neg (by omega)]
  rcases records with _ | ⟨r0, rest⟩
  · exact absurd rfl hne
  · rcases h0 : r0.tas with _ | v
    · exact absurd h0 (hall r0 (List.mem_cons_self r0 rest))
    · simp only [h0, getTasList_ok hall]
      unfold movingSpec
      congr 1
      apply flatMap_congr
      intro i _
      unfold maFlag
      by_cases h1 : 0 < calculate_std
          (windowSlice ((r0 :: rest).map (fun r => r.tas.getD 0)) W i)
      · rw [if_pos h1]
        by_cases h2 : 2 ≤ |((((r0 :: rest).map (fun r => r.tas.getD 0)).getD i 0 : ℚ)
            - (calculate_mean (windowSlice ((r0 :: rest).map (fun r => r.tas.getD 0)) W i) : ℚ))
            / calculate_std (windowSlice ((r0 :: rest).map (fun r => r.tas.getD 0)) W i)|
        · rw [if_pos h2, if_pos ⟨h1, h2⟩]
        · rw [if_neg h2, if_neg (fun hc => h2 hc.2)]
      · rw [if_neg h1, if_neg (fun hc => h1 hc.1)]

open Classical in
/-- C7: the moving-average detector returns the empty set when the dataset
has fewer than `window_size` records or the average-temperature field is
missing; otherwise it flags exactly the interior indices `[W, length - W)`
whose z-score against the centered, bounds-clamped window mean/std satisfies
`|z| >= 2` with a positive window std, severity from the §4.4 table —
`movingSpec` is that statement written from the spec's words, and boundary
indices lie outside its range so they are never flagged. -/
theorem c7_moving_average (records : List WRecord) (W : ℕ) :
    (records.length < W → detect_moving_average_anomalies records W = [])
    ∧ ((∃ r ∈ records, r.tas = none) → detect_moving_average_anomalies records W = [])
    ∧ ((∀ r ∈ records, r.tas ≠ none) → W ≤ records.length → records ≠ [] →
        detectMovingAverageE records W = Except.ok (movingSpec records W)) := by
  refine ⟨?_, ?_, ?_⟩
  · intro h
    unfold detect_moving_average_anomalies detectMovingAverageE
    rw [if_pos h]
    rfl
  · intro h
    unfold detect_moving_average_anomalies detectMovingAverageE
    by_cases hlen : records.length < W
    · rw [if_pos hlen]
      rfl
    · rw [if_neg hlen]
      rcases records with _ | ⟨r0, rest⟩
      · rfl
      · rcases h0 : r0.tas with _ | v
        · simp only [h0]
          rfl
        · simp only [h0, getTasList_error_of_mem h]
          rfl
  · intro hall hW hne
    exact movingE_ok records W hall hW hne

theorem c7_spec_eval : movingSpec c7Records 6 =
    [{ weather_data_id := "m7"
       anomaly_type := WeatherDataType.TEMPERATURE
       severity := determine_severity ((((7 : ℚ) : ℝ) - ((1 : ℚ) : ℝ)) / Real.sqrt 7)
       value := 7
       expected_value := 1
       deviation := 6
       z_score := (((7 : ℚ) : ℝ) - ((1 : ℚ) : ℝ)) / Real.sqrt 7 }] := by
  have hvals : c7Records.map (fun r => r.tas.getD 0)
      = [0, 0, 0, 0, 0, 0, 7, 0, 0, 0, 0, 0, 0] := rfl
  have hma : calculate_mean [(0 : ℚ), 0, 0, 7, 0, 0, 0] = 1 := by
    rw [calculate_mean_cons]
    norm_num
  have hvar : sampleVarQ [(0 : ℚ), 0, 0, 7, 0, 0, 0] = 7 := by
    norm_num [sampleVarQ, calculate_mean_cons]
  have hms : calculate_std [(0 : ℚ), 0, 0, 7, 0, 0, 0] = Real.sqrt 7 := by
    unfold calculate_std
    rw [if_neg (by norm_num), hvar]
    norm_num
  unfold movingSpec
  dsimp only
  rw [hvals]
  rw [show pyRange 6 (([(0 : ℚ), 0, 0, 0, 0, 0, 7, 0, 0, 0, 0, 0, 0]).length - 6) = [6]
    from by decide]
  rw [List.flatMap_cons, List.flatMap_nil, List.append_nil]
  rw [show windowSlice [(0 : ℚ), 0, 0, 0, 0, 0, 7, 0, 0, 0, 0, 0, 0] 6 6
    = [0, 0, 0, 7, 0, 0, 0] from rfl]
  rw [hma, hms]
  rw [show ([(0 : ℚ), 0, 0, 0, 0, 0, 7, 0, 0, 0, 0, 0, 0]).getD 6 0 = 7 from rfl]
  rw [show (c7Records.map WRecord.id).getD 6 "" = "m7" from rfl]
  rw [if_pos ⟨Real.sqrt_pos.mpr (by norm_num),
    (le_abs_div_sqrt_iff 2 _ 7 (by norm_num) (by norm_num)).mpr (by push_cast; norm_num)⟩]
  norm_num

theorem c7_sev_eval : determine_severity ((((7 : ℚ) : ℝ) - ((1 : ℚ) : ℝ)) / Real.sqrt 7)
    = AnomalySeverity.HIGH := by
  unfold determine_severity
  rw [if_neg, if_pos ((le_abs_div_sqrt_iff 2 _ 7 (by norm_num)
    (by norm_num)).mpr (by push_cast; norm_num))]
  rw [le_abs_div_sqrt_iff 2.5 _ 7 (by norm_num) (by norm_num)]
  push_cast
  norm_num

/-- C7 witness: with window size 6, the 13-record series flags exactly its
interior index 6 (window mean 1, window std sqrt 7, z = 6 / sqrt 7, severity
high). -/
theorem c7_moving_average_witness :
    detectMovingAverageE c7Records 6 = Except.ok (movingSpec c7Records 6)
    ∧ (movingSpec c7Records 6).length = 1
    ∧ ∀ a ∈ movingSpec c7Records 6,
        a.weather_data_id = "m7" ∧ a.severity = AnomalySeverity.HIGH := by
  refine ⟨(c7_moving_average c7Records 6).2.2 (by decide) (by decide) (by decide), ?_, ?_⟩
  · rw [c7_spec_eval]
    rfl
  · intro a ha
    rw [c7_spec_eval] at ha
    rw [List.mem_singleton.mp ha]
    exact ⟨rfl, c7_sev_eval⟩

theorem dedupAnomalies_ne_nil {l : List Anomaly} (h : l ≠ []) : dedupAnomalies l ≠ [] := by
  rcases l with _ | ⟨a, t⟩
  · exact absurd rfl h
  · unfold dedupAnomalies dedupGo
    rw [if_neg (List.not_mem_nil _)]
    simp

theorem save_anomalies_insert_fail {anoms : List Anomaly} (h : anoms ≠ []) :
    save_anomalies false anoms = (⟨false, 0⟩, []) := by
  rcases anoms with _ | ⟨a, t⟩
  · exact absurd rfl h
  · show (match dedupAnomalies (a :: t) with
      | [] => ((⟨true, 0⟩ : SaveOutcome), ([] : List Anomaly))
      | _ :: _ =>
        if (false : Bool) = true then
          (⟨true, (dedupAnomalies (a :: t)).length⟩, dedupAnomalies (a :: t))
        else (⟨false, 0⟩, [])) = (⟨false, 0⟩, [])
    rcases hd : dedupAnomalies (a :: t) with _ | ⟨b, s⟩
    · exact absurd hd (dedupAnomalies_ne_nil (by simp))
    · rw [if_neg (by simp)]

/-- C8 (amended): a rejected delete call is caught by the outer handler and
surfaces as success = false with nothing persisted; a rejected insert call is
caught inside save_anomalies — nothing is persisted and the computed
anomalies are discarded — but the run result still carries success = true,
the failure being visible only in the nested save_result (success = false,
saved_count = 0). -/
theorem c8_persistence_failure (records : List WRecord) (insertOk : Bool) :
    run_full_anomaly_detection false insertOk records = (⟨false, 0, none⟩, [])
    ∧ (get_notebook_style_anomalies records ++ detect_extreme_events records ≠ [] →
        run_full_anomaly_detection true false records =
          (⟨true,
            (get_notebook_style_anomalies records ++ detect_extreme_events records).length,
            some ⟨false, 0⟩⟩, [])) := by
  constructor
  · unfold run_full_anomaly_detection
    rw [if_neg (by simp)]
  · intro hne
    unfold run_full_anomaly_detection
    rw [if_pos rfl]
    dsimp only
    rw [save_anomalies_insert_fail hne]

/-- C8 counterexample: the demo dataset produces anomalies, the insert call
is rejected, yet the run result reports success = true — the claim's "failed
run (success is false)" does not hold for insert failures. -/
theorem c8_persistence_failure_counterexample :
    (run_full_anomaly_detection true false demoRecords).1.success = true
    ∧ (run_full_anomaly_detection true false demoRecords).2 = []
    ∧ get_notebook_style_anomalies demoRecords ++ detect_extreme_events demoRecords ≠ [] := by
  have hne : get_notebook_style_anomalies demoRecords ++ detect_extreme_events demoRecords
      ≠ [] := by
    rw [demo_notebook_eval]
    exact List.cons_ne_nil _ _
  have hrun : run_full_anomaly_detection true false demoRecords =
      (⟨true,
        (get_notebook_style_anomalies demoRecords ++ detect_extreme_events demoRecords).length,
        some ⟨false, 0⟩⟩, []) := by
    unfold run_full_anomaly_detection
    rw [if_pos rfl]
    dsimp only
    rw [save_anomalies_insert_fail hne]
  rw [hrun]
  exact ⟨rfl, rfl, hne⟩

/-- C8 witness: the amended statement applied to the demo dataset, for both
the rejected-delete and the rejected-insert case. -/
theorem c8_persistence_failure_witness :
    run_full_anomaly_detection false true demoRecords = (⟨false, 0, none⟩, [])
    ∧ run_full_anomaly_detection true false demoRecords =
        (⟨true,
          (get_notebook_style_anomalies demoRecords ++ detect_extreme_events demoRecords).length,
          some ⟨false, 0⟩⟩, []) := by
  have h := c8_persistence_failure demoRecords true
  refine ⟨h.1, (c8_persistence_failure demoRecords false).2 ?_⟩
  rw [demo_notebook_eval]
  exact List.cons_ne_nil _ _

theorem mem_ite_nil_elim {c : Prop} [Decidable c] {l : List β} {a : β}
    (h : a ∈ (if c then l else [])) : a ∈ l := by
  by_cases hc : c
  · rwa [if_pos hc] at h
  · rw [if_neg hc] at h
    exact absurd h (List.not_mem_nil a)

theorem mem_specExtremeCheck_defaults {ty : WeatherDataType} {ext : ℚ} {vals : List ℚ}
    {rid : String} {a : Anomaly} (h : a ∈ specExtremeCheck ty ext vals rid) :
    a.is_significant = false ∧ a.monthly_historical_avg = none
      ∧ a.monthly_anomaly_std = none ∧ a.metric_type = none := by
  unfold specExtremeCheck at h
  rcases List.mem_singleton.mp (mem_ite_nil_elim h) with rfl
  exact ⟨rfl, rfl, rfl, rfl⟩

theorem mem_extremeEventsSpec_elim {records : List WRecord} {a : Anomaly}
    (ha : a ∈ extremeEventsSpec records) :
    ∃ ty ext vals rid, a ∈ specExtremeCheck ty ext vals rid := by
  unfold extremeEventsSpec at ha
  obtain ⟨m, hm, ha2⟩ := List.mem_flatMap.mp ha
  unfold specExtremeMonth at ha2
  by_cases hlen : (monthRecords records m).length < 10
  · rw [if_pos hlen] at ha2
    exact absurd ha2 (List.not_mem_nil a)
  · rw [if_neg hlen] at ha2
    obtain ⟨r, hr, ha3⟩ := List.mem_flatMap.mp ha2
    rcases List.mem_append.mp ha3 with h4 | h4
    · rcases List.mem_append.mp h4 with h5 | h5
      · exact ⟨_, _, _, _, mem_ite_nil_elim h5⟩
      · exact ⟨_, _, _, _, mem_ite_nil_elim h5⟩
    · exact ⟨_, _, _, _, mem_ite_nil_elim h4⟩

theorem mem_maFlag_defaults {records : List WRecord} {values : List ℚ} {W i : ℕ}
    {a : Anomaly} (h : a ∈ maFlag records values W i) :
    a.is_significant = false ∧ a.monthly_historical_avg = none
      ∧ a.monthly_anomaly_std = none ∧ a.metric_type = none := by
  unfold maFlag at h
  dsimp only at h
  rcases List.mem_singleton.mp (mem_ite_nil_elim (mem_ite_nil_elim h)) with rfl
  exact ⟨rfl, rfl, rfl, rfl⟩

theorem mem_movingE_defaults {records : List WRecord} {W : ℕ} {out : List Anomaly}
    {a : Anomaly} (hE : detectMovingAverageE records W = Except.ok out) (ha : a ∈ out) :
    a.is_significant = false ∧ a.monthly_historical_avg = none
      ∧ a.monthly_anomaly_std = none ∧ a.metric_type = none := by
  unfold detectMovingAverageE at hE
  by_cases hlen : records.length < W
  · rw [if_pos hlen] at hE
    have hout : out = [] := (Except.ok.inj hE).symm
    rw [hout] at ha
    exact absurd ha (List.not_mem_nil a)
  · rw [if_neg hlen] at hE
    rcases records with _ | ⟨r0, rest⟩
    · exact absurd hE (by simp)
    · rcases h0 : r0.tas with _ | v
      · simp only [h0] at hE
        have hout : out = [] := (Except.ok.inj hE).symm
        rw [hout] at ha
        exact absurd ha (List.not_mem_nil a)
      · simp only [h0] at hE
        rcases hg : getTasList (r0 :: rest) with e | values
        · rw [hg] at hE
          exact absurd hE (by simp)
        · rw [hg] at hE
          have hout : out = (pyRange W (values.length - W)).flatMap
              (maFlag (r0 :: rest) values W) := (Except.ok.inj hE).symm
          rw [hout] at ha
          obtain ⟨i, -, hai⟩ := List.mem_flatMap.mp ha
          exact mem_maFlag_defaults hai

/-- C10: every anomaly of the extreme-event detector and of the
moving-average detector keeps the model's defaults for the notebook fields
(is_significant False, monthly_historical_avg, monthly_anomaly_std and
metric_type None) even though those paths only emit at `|z| >= 2`; only the
primary z-score path constructs anomalies with is_significant True, and on
that path metric_type is set exactly for the two temperature subtypes, never
for precipitation. -/
theorem c10_optional_fields (records : List WRecord) (W : ℕ) :
    (∀ a ∈ detect_extreme_events records,
      a.is_significant = false ∧ a.monthly_historical_avg = none
        ∧ a.monthly_anomaly_std = none ∧ a.metric_type = none)
    ∧ (∀ a ∈ detect_moving_average_anomalies records W,
      a.is_significant = false ∧ a.monthly_historical_avg = none
        ∧ a.monthly_anomaly_std = none ∧ a.metric_type = none)
    ∧ (∀ a ∈ get_notebook_style_anomalies records,
        a.is_significant = true
        ∧ (a.anomaly_type = WeatherDataType.PRECIPITATION → a.metric_type = none)
        ∧ (a.anomaly_type = WeatherDataType.TEMPERATURE →
            a.metric_type = some "tasmax" ∨ a.metric_type = some "tasmin")) := by
  refine ⟨?_, ?_, ?_⟩
  · intro a ha
    unfold detect_extreme_events at ha
    rcases hE : detectExtremeEventsE records with e | out
    · rw [hE] at ha
      exact absurd ha (List.not_mem_nil a)
    · rw [hE] at ha
      have ha2 : a ∈ out := ha
      rw [detectE_ok_spec hE] at ha2
      obtain ⟨ty, ext, vals, rid, hc⟩ := mem_extremeEventsSpec_elim ha2
      exact mem_specExtremeCheck_defaults hc
  · intro a ha
    unfold detect_moving_average_anomalies at ha
    rcases hE : detectMovingAverageE records W with e | out
    · rw [hE] at ha
      exact absurd ha (List.not_mem_nil a)
    · rw [hE] at ha
      exact mem_movingE_defaults hE ha
  · intro a ha
    obtain ⟨r, -, hc⟩ := mem_notebook ha
    rcases hc with hc | hc | hc
    · obtain ⟨-, rfl⟩ := mem_prChunk hc
      exact ⟨rfl, fun _ => rfl, fun h => absurd h (by simp [nbAnomaly])⟩
    · obtain ⟨-, rfl⟩ := mem_maxChunk hc
      exact ⟨rfl, fun h => absurd h (by simp [nbAnomaly]), fun _ => Or.inl rfl⟩
    · obtain ⟨-, rfl⟩ := mem_minChunk hc
      exact ⟨rfl, fun h => absurd h (by simp [nbAnomaly]), fun _ => Or.inr rfl⟩

theorem c5_map_tasmax_eval :
    (monthRecords c5Records 1).map WRecord.tasmax = [0, 0, 0, 0, 0, 0, 0, 0, 0, 10] := rfl

theorem c5_mean_tasmax : calculate_mean ((monthRecords c5Records 1).map WRecord.tasmax) = 1 := by
  rw [c5_map_tasmax_eval, calculate_mean_cons]
  norm_num

theorem c5_std_tasmax_eval :
    calculate_std ((monthRecords c5Records 1).map WRecord.tasmax) = Real.sqrt 10 := by
  rw [c5_map_tasmax_eval]
  unfold calculate_std
  rw [if_neg (by norm_num)]
  rw [show sampleVarQ [(0 : ℚ), 0, 0, 0, 0, 0, 0, 0, 0, 10] = 10 by
    norm_num [sampleVarQ, calculate_mean_cons]]
  norm_num

theorem c5_extreme_member :
    ∃ a, a ∈ detect_extreme_events c5Records := by
  obtain ⟨out, hE⟩ := c5_no_error
  have hdet : detect_extreme_events c5Records = out := by
    unfold detect_extreme_events
    rw [hE]
    rfl
  have hcond : 2 ≤ |calculate_z_score
      ((pyMax ((monthRecords c5Records 1).map WRecord.tasmax) : ℚ) : ℝ)
      ((calculate_mean ((monthRecords c5Records 1).map WRecord.tasmax) : ℚ) : ℝ)
      (calculate_std ((monthRecords c5Records 1).map WRecord.tasmax))| := by
    rw [show pyMax ((monthRecords c5Records 1).map WRecord.tasmax) = 10 from by decide]
    rw [c5_mean_tasmax, c5_std_tasmax_eval]
    rw [calculate_z_score_of_ne (Real.sqrt_ne_zero'.mpr (by norm_num))]
    rw [le_abs_div_sqrt_iff 2 _ 10 (by norm_num) (by norm_num)]
    push_cast
    norm_num
  have hcheck : ∃ a, a ∈ specExtremeCheck WeatherDataType.TEMPERATURE
      (pyMax ((monthRecords c5Records 1).map WRecord.tasmax))
      ((monthRecords c5Records 1).map WRecord.tasmax) "b10" := by
    unfold specExtremeCheck
    rw [if_pos hcond]
    exact ⟨_, List.mem_singleton_self _⟩
  obtain ⟨aX, haX⟩ := hcheck
  refine ⟨aX, ?_⟩
  rw [hdet, detectE_ok_spec hE]
  unfold extremeEventsSpec
  apply List.mem_flatMap.mpr
  refine ⟨1, by decide, ?_⟩
  unfold specExtremeMonth
  rw [if_neg (by decide)]
  apply List.mem_flatMap.mpr
  refine ⟨⟨"b10", 1999, 1, 1, 10, -10, none⟩, by decide, ?_⟩
  apply List.mem_append_left
  apply List.mem_append_left
  rw [if_pos (by decide)]
  exact haX

/-- C10 witness: a member of each detector's output, with the field facts
obtained from the theorem — an extreme-event anomaly of the ten-record
dataset, the moving-average anomaly of the window-6 series, and the demo
dataset's primary-path max-temperature anomaly. -/
theorem c10_optional_fields_witness :
    (∃ a ∈ detect_extreme_events c5Records,
      a.is_significant = false ∧ a.monthly_historical_avg = none
        ∧ a.monthly_anomaly_std = none ∧ a.metric_type = none)
    ∧ (∃ a ∈ detect_moving_average_anomalies c7Records 6,
      a.is_significant = false ∧ a.monthly_historical_avg = none
        ∧ a.monthly_anomaly_std = none ∧ a.metric_type = none)
    ∧ (∃ a ∈ get_notebook_style_anomalies demoRecords,
        a.is_significant = true
        ∧ (a.anomaly_type = WeatherDataType.PRECIPITATION → a.metric_type = none)
        ∧ (a.anomaly_type = WeatherDataType.TEMPERATURE →
            a.metric_type = some "tasmax" ∨ a.metric_type = some "tasmin")) := by
  refine ⟨?_, ?_, ?_⟩
  · obtain ⟨aX, haX⟩ := c5_extreme_member
    exact ⟨aX, haX, (c10_optional_fields c5Records 6).1 aX haX⟩
  · have hdet : detect_moving_average_anomalies c7Records 6 = movingSpec c7Records 6 := by
      unfold detect_moving_average_anomalies
      rw [movingE_ok c7Records 6 (by decide) (by decide) (by decide)]
      rfl
    have hmem : ∃ a, a ∈ detect_moving_average_anomalies c7Records 6 := by
      rw [hdet, c7_spec_eval]
      exact ⟨_, List.mem_singleton_self _⟩
    obtain ⟨aX, haX⟩ := hmem
    exact ⟨aX, haX, (c10_optional_fields c7Records 6).2.1 aX haX⟩
  · have hmem : nbAnomaly demoRecords WRecord.tasmax WeatherDataType.TEMPERATURE
        (some "tasmax") demoR9 ∈ get_notebook_style_anomalies demoRecords := by
      rw [demo_notebook_eval]
      exact List.mem_cons_self _ _
    exact ⟨_, hmem, (c10_optional_fields demoRecords 6).2.2 _ hmem⟩

end WeatherAnomaly
